import Mathlib

/-
Verification of the psrdb command-line client (entity table modules
`pulsar.py`, `calibration.py`, `observation.py`, `toa.py` and the CLI entry
point `scripts/psrdb.py`) against its natural-language specification.

The table modules are shallowly embedded: every operation of a table class is
a function from the mutable object state (`TableState`) and the operation's
parameters to the new state together with the request value it forwards to the
shared GraphQL client.  The shared base class `GraphQLTable`
(psrdb/graphql_table.py) and the utility `psrdb/utils/toa.py` are not part of
the given sources; following the specification ("Each table module builds a
hard-coded GraphQL mutation/query string, binds CLI arguments to GraphQL
variables, and forwards the request to a shared HTTP client"), their
`list_graphql` / `mutation_graphql` entry points are modelled as the pure
forwarding boundary: they package their arguments (respectively the request
fields of the current state) into a `Req` value and leave the state unchanged.
-/

set_option maxRecDepth 1000000

namespace Psrdb

/-- Values that the Python code stores in GraphQL variable bindings and
filter records: `None`, integers, strings, booleans. -/
inductive Val where
  | none
  | int (n : Int)
  | str (s : String)
  | bool (b : Bool)
  deriving Repr, DecidableEq, BEq

/-- Coerce an optional integer argument (Python `int` or `None`). -/
def Val.ofOptInt : Option Int → Val
  | Option.none => Val.none
  | Option.some n => Val.int n

/-- Coerce an optional string argument (Python `str` or `None`). -/
def Val.ofOptStr : Option String → Val
  | Option.none => Val.none
  | Option.some s => Val.str s

/-- Coerce an optional boolean argument (Python `bool` or `None`). -/
def Val.ofOptBool : Option Bool → Val
  | Option.none => Val.none
  | Option.some b => Val.bool b

/-- Python truthiness of an optional boolean: `None` and `False` are falsy.
This is the test performed by `if minimum_nsubs:` and by
`if dm_corrected is not None and dm_corrected:` in `toa.py`. -/
def truthy : Option Bool → Bool
  | Option.some true => true
  | _ => false

/-- One member of the filter clause handed to `list_graphql`: a
`{"field": ..., "value": ...}` record. -/
structure GQLFilter where
  field : String
  value : Val
  deriving Repr, DecidableEq, BEq

/-- The request a table operation forwards to the shared GraphQL client:
either a list query (`GraphQLTable.list_graphql(table_name, filters,
connection_fields, field_names)`) or a mutation
(`GraphQLTable.mutation_graphql()` reading `self.mutation_name`,
`self.mutation` and `self.variables`, here `varsDict` since `variables` is reserved in Lean). -/
inductive Req where
  | listReq (table_name : String) (filters : List GQLFilter)
      (connection_fields : List String) (fields : List String)
  | mutationReq (mutation_name : String) (mutation : String)
      (varsDict : List (String × Val))
  deriving Repr, DecidableEq, BEq

/-- The filter clause carried by a request (empty for mutations). -/
def Req.filters : Req → List GQLFilter
  | Req.listReq _ fs _ _ => fs
  | Req.mutationReq _ _ _ => []

/-- The field-name projection carried by a request (empty for mutations). -/
def Req.fields : Req → List String
  | Req.listReq _ _ _ f => f
  | Req.mutationReq _ _ _ => []

/-- The variable bindings carried by a request (empty for list queries). -/
def Req.vars : Req → List (String × Val)
  | Req.listReq _ _ _ _ => []
  | Req.mutationReq _ _ v => v

/-- The mutation name carried by a mutation request. -/
def Req.mutName : Req → String
  | Req.listReq _ _ _ _ => ""
  | Req.mutationReq n _ _ => n

/-- The mutation string carried by a mutation request. -/
def Req.mutStr : Req → String
  | Req.listReq _ _ _ _ => ""
  | Req.mutationReq _ m _ => m

/-- The mutable state of a table object: the attributes that the module code
assigns on `self` (`table_name`, `field_names`, `mutation_name`, `mutation`,
`variables` — called `varsDict` here since `variables` is reserved in Lean —
`print_stdout`, `get_dicts`). -/
structure TableState where
  table_name : String
  field_names : List String
  mutation_name : String
  mutation : String
  varsDict : List (String × Val)
  print_stdout : Bool
  get_dicts : Bool
  deriving Repr, DecidableEq, BEq

/-- Modelled from the spec: `GraphQLTable.__init__` lives in
`psrdb/graphql_table.py`, which is not among the given sources; the base state
starts with empty request fields before a module's `__init__` fills in
`table_name` and `field_names`. -/
def GraphQLTable.base : TableState :=
  { table_name := "", field_names := [], mutation_name := "", mutation := "",
    varsDict := [], print_stdout := false, get_dicts := false }

/-- Modelled from the spec: `GraphQLTable.list_graphql` (absent
`psrdb/graphql_table.py`) is the point where a table module "forwards the
request to a shared HTTP client"; it is modelled as packaging its arguments
into a list request, leaving the table state unchanged. -/
def GraphQLTable.list_graphql (s : TableState) (table_name : String)
    (filters : List GQLFilter) (connection_fields : List String)
    (fields : List String) : TableState × Req :=
  (s, Req.listReq table_name filters connection_fields fields)

/-- Modelled from the spec: `GraphQLTable.mutation_graphql` (absent
`psrdb/graphql_table.py`) forwards the mutation prepared on the object state
(`self.mutation_name`, `self.mutation`, `self.variables`) to the shared HTTP
client, leaving the state unchanged. -/
def GraphQLTable.mutation_graphql (s : TableState) : TableState × Req :=
  (s, Req.mutationReq s.mutation_name s.mutation s.varsDict)

/-- Outcome of a `process` dispatch on a subcommand: either a call of the
named operation with the given number of positional arguments, or the
`raise RuntimeError(... " command is not implemented")` branch. -/
inductive Dispatch where
  | calls (op : String) (passed : Nat)
  | notImplementedError
  deriving Repr, DecidableEq, BEq

/-- Arity of a Python method (excluding `self`): number of parameters without
a default value, and total number of parameters. -/
structure Arity where
  required : Nat
  total : Nat
  deriving Repr, DecidableEq, BEq

/-- A positional call with `passed` arguments binds successfully (no
`TypeError`) exactly when it supplies every required parameter and does not
overflow the parameter list. -/
def wellFormedCall (passed : Nat) (a : Arity) : Bool :=
  decide (a.required ≤ passed) && decide (passed ≤ a.total)

/-- Characters GraphQL identifiers (and Python identifiers) are made of. -/
def identChar (c : Char) : Bool := c.isAlphanum || c == '_'

/-- Scanner step for `declaredVars`: accumulate a `$`-prefixed identifier and
accept it when it is immediately followed by `:` (the form a GraphQL variable
declaration takes in the mutation headers of this repository; variable usages
in the bodies are never followed by `:`). -/
def scanStep : Option String × List String → Char → Option String × List String
  | (Option.some t, acc), c =>
    if identChar c then (Option.some (t.push c), acc)
    else if c == ':' then (Option.none, acc ++ [t])
    else if c == '$' then (Option.some "", acc)
    else (Option.none, acc)
  | (Option.none, acc), c =>
    if c == '$' then (Option.some "", acc) else (Option.none, acc)

/-- Strict accumulator-passing run of `scanStep` over a list of characters. -/
def scanChars : Option String → List String → List Char → Option String × List String
  | cur, acc, [] => (cur, acc)
  | cur, acc, c :: cs =>
    match scanStep (cur, acc) c with
    | (Option.some t, acc2) => scanChars (Option.some t) acc2 cs
    | (Option.none, acc2) => scanChars Option.none acc2 cs

/-- Strict accumulator-passing run of the scanner over a list of lines, with
a newline after each line. -/
def scanLines : Option String → List String → List String → Option String × List String
  | cur, acc, [] => (cur, acc)
  | cur, acc, l :: ls =>
    match scanChars cur acc (l.data ++ [Char.ofNat 10]) with
    | (Option.some t, acc2) => scanLines (Option.some t) acc2 ls
    | (Option.none, acc2) => scanLines Option.none acc2 ls

/-- The GraphQL variables a hard-coded mutation string declares: every
occurrence of `$name:`.  The mutation is given as its list of lines (the
`...Lines` constants below); scanning the lines one by one with a newline
after each is equivalent to scanning the joined string, since a newline after
the last line only discards a pending identifier not followed by `:`, exactly
as the end of the input does.  Scanning per line keeps the evaluation depth
proportional to a line length rather than to the whole string. -/
def declaredVars (lines : List String) : List String :=
  (scanLines Option.none [] lines).2

/-- Two lists of names contain the same set of names. -/
def sameSet (a b : List String) : Bool :=
  a.all (b.contains ·) && b.all (a.contains ·)

/-- Scanner step for `identTokens`: collect maximal runs of identifier
characters. -/
def identTokensStep : Option String × List String → Char →
    Option String × List String
  | (Option.some t, acc), c =>
    if identChar c then (Option.some (t.push c), acc) else (Option.none, acc ++ [t])
  | (Option.none, acc), c =>
    if identChar c then (Option.some (String.singleton c), acc)
    else (Option.none, acc)

/-- All identifier tokens occurring in a string, in order. -/
def identTokens (s : String) : List String :=
  match s.data.foldl identTokensStep (Option.none, []) with
  | (Option.some t, acc) => acc ++ [t]
  | (Option.none, acc) => acc

/-- Split a character list at every occurrence of a separator character. -/
def splitOnChar (sep : Char) : List Char → List (List Char)
  | [] => [[]]
  | c :: rest =>
    let r := splitOnChar sep rest
    if c = sep then [] :: r
    else
      match r with
      | [] => [[c]]
      | h :: t => (c :: h) :: t

/-- The text of a string after its last closing parenthesis.  For the
hard-coded delete mutations this is exactly the result selection block. -/
def afterLastParen (s : String) : String :=
  String.mk ((splitOnChar ')' s.data).getLastD [])

/-- A Python `datetime` value as produced by `datetime.strptime` (microseconds
are always zero for the format used here). -/
structure PyDateTime where
  year : Nat
  month : Nat
  day : Nat
  hour : Nat
  minute : Nat
  second : Nat
  deriving Repr, DecidableEq, BEq

/-- Gregorian leap-year rule used by Python's `datetime`. -/
def isLeapYear (y : Nat) : Bool := (y % 4 == 0 && y % 100 != 0) || y % 400 == 0

/-- Days in a month, as validated by Python's `datetime` constructor. -/
def daysInMonth (y m : Nat) : Nat :=
  if m == 2 then (if isLeapYear y then 29 else 28)
  else if m == 4 || m == 6 || m == 9 || m == 11 then 30
  else 31

/-- Every character of the (non-empty) string is a decimal digit. -/
def digitsOnly (s : String) : Bool := !s.data.isEmpty && s.data.all Char.isDigit

/-- Numeric value of a decimal digit string. -/
def parseNat (s : String) : Nat := s.data.foldl (fun a c => a * 10 + (c.toNat - 48)) 0

/-- Embedding of `datetime.strptime(s, "%Y-%m-%d-%H:%M:%S")` as used by
`Observation.list`.  Python's `_strptime` matches `%Y` against exactly four
digits and the other directives against one or two digits bounded by their
value range, with literal `-` and `:` separators consuming the whole string;
the `datetime` constructor then validates the calendar ranges (year at least
1, day within the month, hour below 24, minute and second below 60).  Digits
are the only characters the directives accept, so splitting the input at the
separator characters is equivalent to Python's regex matching. -/
def strptime_Y_m_d_HMS (s : String) : Option PyDateTime :=
  match splitOnChar '-' s.data with
  | [ys, ms, ds, hms] =>
    match splitOnChar ':' hms with
    | [hs, mins, ss] =>
      let ys := String.mk ys
      let ms := String.mk ms
      let ds := String.mk ds
      let hs := String.mk hs
      let mins := String.mk mins
      let ss := String.mk ss
      if digitsOnly ys && digitsOnly ms && digitsOnly ds && digitsOnly hs &&
         digitsOnly mins && digitsOnly ss &&
         ys.length == 4 && ms.length ≤ 2 && ds.length ≤ 2 && hs.length ≤ 2 &&
         mins.length ≤ 2 && ss.length ≤ 2 then
        let y := parseNat ys
        let mo := parseNat ms
        let d := parseNat ds
        let h := parseNat hs
        let mi := parseNat mins
        let se := parseNat ss
        if 1 ≤ y && 1 ≤ mo && mo ≤ 12 && 1 ≤ d && d ≤ daysInMonth y mo &&
           h ≤ 23 && mi ≤ 59 && se ≤ 59 then
          Option.some { year := y, month := mo, day := d, hour := h, minute := mi, second := se }
        else Option.none
      else Option.none
    | _ => Option.none
  | _ => Option.none

/-- Zero-padded two-digit rendering (Python `%02d`). -/
def pad2 (n : Nat) : String := if n < 10 then "0" ++ toString n else toString n

/-- Zero-padded four-digit rendering (Python `%04d`, used for years). -/
def pad4 (n : Nat) : String :=
  if n < 10 then "000" ++ toString n
  else if n < 100 then "00" ++ toString n
  else if n < 1000 then "0" ++ toString n
  else toString n

/-- Python `str(d.date())`: ISO date `YYYY-MM-DD`. -/
def pydate_str (d : PyDateTime) : String :=
  pad4 d.year ++ "-" ++ pad2 d.month ++ "-" ++ pad2 d.day

/-- Python `str(d.time())` for zero microseconds: `HH:MM:SS`. -/
def pytime_str (d : PyDateTime) : String :=
  pad2 d.hour ++ ":" ++ pad2 d.minute ++ ":" ++ pad2 d.second

/-- Normalisation `Observation.list` performs on each UTC bound: an absent
bound stays absent, the empty string becomes absent, and any other string is
parsed with `%Y-%m-%d-%H:%M:%S` (a `ValueError` escaping the call is modelled
as the outer `Option.none`) and reformatted as the f-string
`f"{d.date()}T{d.time()}+00:00"`. -/
def normalize_utc_arg : Option String → Option (Option String)
  | Option.none => Option.some Option.none
  | Option.some u =>
    if u = "" then Option.some Option.none
    else (strptime_Y_m_d_HMS u).map
      (fun d => Option.some (pydate_str d ++ "T" ++ pytime_str d ++ "+00:00"))

/-- The lines of the hard-coded `createPulsar` mutation string of `pulsar.py`
(braces written as escapes). -/
def Pulsar.createMutationLines : List String :=
  ["",
   "        mutation ($name: String!, $comment: String) \x7b",
   "            createPulsar(input: \x7b",
   "                name: $name, comment: $comment",
   "            \x7d) \x7b",
   "                pulsar \x7b",
   "                    id",
   "                \x7d",
   "            \x7d",
   "        \x7d",
   "        "]

/-- The hard-coded `createPulsar` mutation string of `pulsar.py`. -/
def Pulsar.createMutation : String :=
  String.intercalate "\n" Pulsar.createMutationLines

/-- The lines of the hard-coded `updatePulsar` mutation string of `pulsar.py`
(braces written as escapes). -/
def Pulsar.updateMutationLines : List String :=
  ["",
   "        mutation ($id: Int!, $name: String!, $comment: String) \x7b",
   "            updatePulsar(id: $id, input: \x7b",
   "                name: $name,",
   "                comment: $comment",
   "            \x7d) \x7b",
   "                pulsar \x7b",
   "                    id,",
   "                    name,",
   "                    comment",
   "                \x7d",
   "            \x7d",
   "        \x7d",
   "        "]

/-- The hard-coded `updatePulsar` mutation string of `pulsar.py`. -/
def Pulsar.updateMutation : String :=
  String.intercalate "\n" Pulsar.updateMutationLines

/-- The lines of the hard-coded `deletePulsar` mutation string of `pulsar.py`
(braces written as escapes). -/
def Pulsar.deleteMutationLines : List String :=
  ["",
   "        mutation ($id: Int!) \x7b",
   "            deletePulsar(id: $id) \x7b",
   "                ok",
   "            \x7d",
   "        \x7d",
   "        "]

/-- The hard-coded `deletePulsar` mutation string of `pulsar.py`. -/
def Pulsar.deleteMutation : String :=
  String.intercalate "\n" Pulsar.deleteMutationLines

/-- The lines of the hard-coded `createCalibration` mutation string of `calibration.py`
(braces written as escapes). -/
def Calibration.createMutationLines : List String :=
  ["",
   "        mutation (",
   "            $schedule_block_id: String,",
   "            $calibration_type: String!,",
   "            $location: String,",
   "        ) \x7b",
   "            createCalibration(input: \x7b",
   "                scheduleBlockId: $schedule_block_id,",
   "                calibrationType: $calibration_type,",
   "                location: $location",
   "                \x7d) \x7b",
   "                calibration \x7b",
   "                    id",
   "                \x7d",
   "            \x7d",
   "        \x7d",
   "        "]

/-- The hard-coded `createCalibration` mutation string of `calibration.py`. -/
def Calibration.createMutation : String :=
  String.intercalate "\n" Calibration.createMutationLines

/-- The lines of the hard-coded `updateCalibration` mutation string of `calibration.py`
(braces written as escapes). -/
def Calibration.updateMutationLines : List String :=
  ["",
   "        mutation ($id: Int!, $calibration_type: String!, $location: String!) \x7b",
   "            updateCalibration(id: $id, input: \x7b",
   "                calibrationType: $calibration_type,",
   "                location: $location",
   "            \x7d) \x7b",
   "                calibration \x7b",
   "                    id",
   "                    calibrationType,",
   "                    location",
   "                \x7d",
   "            \x7d",
   "        \x7d",
   "        "]

/-- The hard-coded `updateCalibration` mutation string of `calibration.py`. -/
def Calibration.updateMutation : String :=
  String.intercalate "\n" Calibration.updateMutationLines

/-- The lines of the hard-coded `deleteCalibration` mutation string of `calibration.py`
(braces written as escapes). -/
def Calibration.deleteMutationLines : List String :=
  ["",
   "        mutation ($id: Int!) \x7b",
   "            deleteCalibration(id: $id) \x7b",
   "                ok",
   "            \x7d",
   "        \x7d",
   "        "]

/-- The hard-coded `deleteCalibration` mutation string of `calibration.py`. -/
def Calibration.deleteMutation : String :=
  String.intercalate "\n" Calibration.deleteMutationLines


/-- Modelled from the spec: the external `pulsar_paragraph` library call
`create_pulsar_paragraph(pulsar_names=[name])[0]` used by `Pulsar.create` and
`Pulsar.update` to generate a default comment; no claim depends on the text it
produces, so it is modelled as an arbitrary fixed function of the name. -/
def create_pulsar_paragraph (name : String) : String :=
  "pulsar paragraph for " ++ name

/-- State of a `Pulsar` object right after `Pulsar.__init__`. -/
def Pulsar.init : TableState :=
  { GraphQLTable.base with
      table_name := "pulsar",
      field_names := ["id", "name", "comment"] }

/-- Embedding of `Pulsar.list`: builds a filter on the name only (the `id`
parameter is not used) and forwards via `list_graphql`. -/
def Pulsar.list (s : TableState) (id : Option Int) (name : Option String) :
    TableState × Req :=
  let filters : List GQLFilter := [{ field := "name", value := Val.ofOptStr name }]
  GraphQLTable.list_graphql s s.table_name filters [] s.field_names

/-- Embedding of `Pulsar.create`. -/
def Pulsar.create (s : TableState) (name : String) (comment : Option String) :
    TableState × Req :=
  let s := { s with mutation_name := "createPulsar", mutation := Pulsar.createMutation }
  let comment := match comment with
    | Option.none => create_pulsar_paragraph name
    | Option.some c => c
  let s := { s with varsDict := [("name", Val.str name), ("comment", Val.str comment)] }
  GraphQLTable.mutation_graphql s

/-- Embedding of `Pulsar.update`. -/
def Pulsar.update (s : TableState) (id : Int) (name : String)
    (comment : Option String) : TableState × Req :=
  let s := { s with mutation_name := "updatePulsar", mutation := Pulsar.updateMutation }
  let comment := match comment with
    | Option.none => create_pulsar_paragraph name
    | Option.some c => c
  let s := { s with
      varsDict := [("id", Val.int id), ("name", Val.str name), ("comment", Val.str comment)] }
  GraphQLTable.mutation_graphql s

/-- Embedding of `Pulsar.delete`. -/
def Pulsar.delete (s : TableState) (id : Int) : TableState × Req :=
  let s := { s with
      mutation_name := "deletePulsar",
      mutation := Pulsar.deleteMutation,
      varsDict := [("id", Val.int id)] }
  GraphQLTable.mutation_graphql s

/-- The dispatch skeleton of `Pulsar.process`: which operation each
subcommand calls and with how many positional arguments
(`create(args.name, args.comment)`, `update(args.id, args.name,
args.comment)`, `list(args.id, args.name)`, `delete(args.id)`). -/
def Pulsar.process_dispatch (subcommand : String) : Dispatch :=
  if subcommand = "create" then Dispatch.calls "create" 2
  else if subcommand = "update" then Dispatch.calls "update" 3
  else if subcommand = "list" then Dispatch.calls "list" 2
  else if subcommand = "delete" then Dispatch.calls "delete" 1
  else Dispatch.notImplementedError

/-- Methods defined on the `Pulsar` class. -/
def Pulsar.methods : List String := ["list", "create", "update", "delete"]

/-- Signature arity of `Pulsar.list(self, id=None, name=None)`. -/
def Pulsar.list_arity : Arity := { required := 0, total := 2 }

/-- Signature arity of `Pulsar.create(self, name, comment=None)`. -/
def Pulsar.create_arity : Arity := { required := 1, total := 2 }

/-- Signature arity of `Pulsar.update(self, id, name, comment)`. -/
def Pulsar.update_arity : Arity := { required := 3, total := 3 }

/-- Signature arity of `Pulsar.delete(self, id)`. -/
def Pulsar.delete_arity : Arity := { required := 1, total := 1 }

/-- State of a `Calibration` object right after `Calibration.__init__`. -/
def Calibration.init : TableState :=
  { GraphQLTable.base with
      table_name := "calibration",
      field_names := ["id", "delayCalId", "phaseUpId", "calibrationType", "location"] }

/-- Embedding of `Calibration.list`. -/
def Calibration.list (s : TableState) (id : Option Int) (type : Option String) :
    TableState × Req :=
  let filters : List GQLFilter :=
    [{ field := "id", value := Val.ofOptInt id },
     { field := "type", value := Val.ofOptStr type }]
  GraphQLTable.list_graphql s s.table_name filters [] s.field_names

/-- Embedding of `Calibration.create`. -/
def Calibration.create (s : TableState) (schedule_block_id type location : Val) :
    TableState × Req :=
  let s := { s with
      mutation_name := "createCalibration",
      mutation := Calibration.createMutation }
  let s := { s with
      varsDict := [("schedule_block_id", schedule_block_id),
        ("calibration_type", type),
        ("location", location)] }
  GraphQLTable.mutation_graphql s

/-- Embedding of `Calibration.update`.  Note the signature takes four
parameters besides `self` while the mutation string declares only `$id`,
`$calibration_type` and `$location`. -/
def Calibration.update (s : TableState) (id : Int)
    (schedule_block_id type location : Val) : TableState × Req :=
  let s := { s with
      mutation_name := "updateCalibration",
      mutation := Calibration.updateMutation }
  let s := { s with
      varsDict := [("id", Val.int id),
        ("schedule_block_id", schedule_block_id),
        ("calibration_type", type),
        ("location", location)] }
  GraphQLTable.mutation_graphql s

/-- Embedding of `Calibration.delete`. -/
def Calibration.delete (s : TableState) (id : Int) : TableState × Req :=
  let s := { s with
      mutation_name := "deleteCalibration",
      mutation := Calibration.deleteMutation,
      varsDict := [("id", Val.int id)] }
  GraphQLTable.mutation_graphql s

/-- The dispatch skeleton of `Calibration.process`
(`create(args.delay_cal_id, args.type, args.location)`, `list(args.id,
args.type)`, `update(args.id, args.type, args.location)`,
`delete(args.id)`). -/
def Calibration.process_dispatch (subcommand : String) : Dispatch :=
  if subcommand = "create" then Dispatch.calls "create" 3
  else if subcommand = "list" then Dispatch.calls "list" 2
  else if subcommand = "update" then Dispatch.calls "update" 3
  else if subcommand = "delete" then Dispatch.calls "delete" 1
  else Dispatch.notImplementedError

/-- Methods defined on the `Calibration` class. -/
def Calibration.methods : List String := ["list", "create", "update", "delete"]

/-- Signature arity of `Calibration.list(self, id=None, type=None)`. -/
def Calibration.list_arity : Arity := { required := 0, total := 2 }

/-- Signature arity of `Calibration.create(self, schedule_block_id, type, location)`. -/
def Calibration.create_arity : Arity := { required := 3, total := 3 }

/-- Signature arity of
`Calibration.update(self, id, schedule_block_id, type, location)`. -/
def Calibration.update_arity : Arity := { required := 4, total := 4 }

/-- Signature arity of `Calibration.delete(self, id)`. -/
def Calibration.delete_arity : Arity := { required := 1, total := 1 }

/-- The lines of the hard-coded `createObservation` mutation string of `observation.py`
(braces written as escapes). -/
def Observation.createMutationLines : List String :=
  ["",
   "        mutation (",
   "            $pulsarName: String!,",
   "            $telescopeName: String!,",
   "            $projectCode: String!,",
   "            $calibrationId: Int!,",
   "            $frequency: Float!,",
   "            $bandwidth: Float!,",
   "            $nchan: Int!,",
   "            $beam: Int!,",
   "            $nant: Int!,",
   "            $nantEff: Int!,",
   "            $npol: Int!,",
   "            $obsType: String!,",
   "            $utcStart: DateTime!,",
   "            $raj: String!,",
   "            $decj: String!,",
   "            $duration: Float!,",
   "            $nbit: Int!,",
   "            $tsamp: Float!,",
   "            # Fold options",
   "            $ephemerisText: String,",
   "            $foldNbin: Int,",
   "            $foldNchan: Int,",
   "            $foldTsubint: Int,",
   "            # Search options",
   "            $filterbankNbit: Int,",
   "            $filterbankNpol: Int,",
   "            $filterbankNchan: Int,",
   "            $filterbankTsamp: Float,",
   "            $filterbankDm: Float,",
   "        ) \x7b",
   "            createObservation(input: \x7b",
   "                pulsarName: $pulsarName,",
   "                telescopeName: $telescopeName,",
   "                projectCode: $projectCode,",
   "                calibrationId: $calibrationId,",
   "                frequency: $frequency,",
   "                bandwidth: $bandwidth,",
   "                nchan: $nchan,",
   "                beam: $beam,",
   "                nant: $nant,",
   "                nantEff: $nantEff,",
   "                npol: $npol,",
   "                obsType: $obsType,",
   "                utcStart: $utcStart,",
   "                raj: $raj,",
   "                decj: $decj,",
   "                duration: $duration,",
   "                nbit: $nbit,",
   "                tsamp: $tsamp,",
   "                ephemerisText: $ephemerisText,",
   "                foldNbin: $foldNbin,",
   "                foldNchan: $foldNchan,",
   "                foldTsubint: $foldTsubint,",
   "                filterbankNbit: $filterbankNbit,",
   "                filterbankNpol: $filterbankNpol,",
   "                filterbankNchan: $filterbankNchan,",
   "                filterbankTsamp: $filterbankTsamp,",
   "                filterbankDm: $filterbankDm,",
   "            \x7d) \x7b",
   "                observation \x7b",
   "                    id",
   "                \x7d",
   "            \x7d",
   "        \x7d",
   "        "]

/-- The hard-coded `createObservation` mutation string of `observation.py`. -/
def Observation.createMutation : String :=
  String.intercalate "\n" Observation.createMutationLines

/-- The lines of the hard-coded `updateObservation` mutation string of `observation.py`
(braces written as escapes). -/
def Observation.updateMutationLines : List String :=
  ["",
   "        mutation (",
   "            $id: Int!,",
   "            $pulsarName: String!,",
   "            $telescopeName: String!,",
   "            $projectCode: String!,",
   "            $calibrationId: Int!,",
   "            $frequency: Float!,",
   "            $bandwidth: Float!,",
   "            $nchan: Int!,",
   "            $beam: Int!,",
   "            $nant: Int!,",
   "            $nantEff: Int!,",
   "            $npol: Int!,",
   "            $obsType: String!,",
   "            $utcStart: DateTime!,",
   "            $raj: String!,",
   "            $decj: String!,",
   "            $duration: Float!,",
   "            $nbit: Int!,",
   "            $tsamp: Float!,",
   "            # Fold options",
   "            $ephemerisText: String,",
   "            $foldNbin: Int,",
   "            $foldNchan: Int,",
   "            $foldTsubint: Int,",
   "            # Search options",
   "            $filterbankNbit: Int,",
   "            $filterbankNpol: Int,",
   "            $filterbankNchan: Int,",
   "            $filterbankTsamp: Float,",
   "            $filterbankDm: Float,",
   "        ) \x7b",
   "            updateObservation(input: \x7b",
   "                id: $id,",
   "                pulsarName: $pulsarName,",
   "                telescopeName: $telescopeName,",
   "                projectCode: $projectCode,",
   "                calibrationId: $calibrationId,",
   "                frequency: $frequency,",
   "                bandwidth: $bandwidth,",
   "                nchan: $nchan,",
   "                beam: $beam,",
   "                nant: $nant,",
   "                nantEff: $nantEff,",
   "                npol: $npol,",
   "                obsType: $obsType,",
   "                utcStart: $utcStart,",
   "                raj: $raj,",
   "                decj: $decj,",
   "                duration: $duration,",
   "                nbit: $nbit,",
   "                tsamp: $tsamp,",
   "                ephemerisText: $ephemerisText,",
   "                foldNbin: $foldNbin,",
   "                foldNchan: $foldNchan,",
   "                foldTsubint: $foldTsubint,",
   "                filterbankNbit: $filterbankNbit,",
   "                filterbankNpol: $filterbankNpol,",
   "                filterbankNchan: $filterbankNchan,",
   "                filterbankTsamp: $filterbankTsamp,",
   "                filterbankDm: $filterbankDm,",
   "            \x7d) \x7b",
   "                observation \x7b",
   "                    id",
   "                \x7d",
   "            \x7d",
   "        \x7d",
   "        "]

/-- The hard-coded `updateObservation` mutation string of `observation.py`. -/
def Observation.updateMutation : String :=
  String.intercalate "\n" Observation.updateMutationLines

/-- The lines of the hard-coded `deleteObservation` mutation string of `observation.py`
(braces written as escapes). -/
def Observation.deleteMutationLines : List String :=
  ["",
   "        mutation ($id: Int!) \x7b",
   "            deleteObservation(id: $id) \x7b",
   "                ok",
   "            \x7d",
   "        \x7d",
   "        "]

/-- The hard-coded `deleteObservation` mutation string of `observation.py`. -/
def Observation.deleteMutation : String :=
  String.intercalate "\n" Observation.deleteMutationLines


/-- State of an `Observation` object right after `Observation.__init__`. -/
def Observation.init : TableState :=
  { GraphQLTable.base with
      table_name := "observation",
      field_names := ["id", "pulsar \x7b name \x7d", "calibration \x7b id \x7d",
        "calibration \x7b location \x7d", "telescope \x7b name \x7d",
        "project \x7b code \x7d", "project \x7b short \x7d", "utcStart", "beam",
        "band", "duration"] }

/-- Default of the `obs_type` parameter of `Observation.list`
(`obs_type='fold'` in the signature; `Observation.process` never passes it, so
every CLI list call uses this default). -/
def Observation.obs_type_default : String := "fold"

/-- Embedding of `Observation.list`: normalises the two UTC bounds (empty
string to `None`, otherwise `strptime` and reformat — a parse failure raises
`ValueError`, modelled as the outer `Option.none`), turns empty-string
`project_short` and `pulsar_name` into `None`, then forwards the eight filter
records via `list_graphql`. -/
def Observation.list (s : TableState) (id : Option Int)
    (pulsar_name telescope_name : Option String) (project_id : Option Int)
    (project_short : Option String) (utcs utce : Option String)
    (obs_type : String) : Option (TableState × Req) :=
  match normalize_utc_arg utcs with
  | Option.none => Option.none
  | Option.some utcs =>
    match normalize_utc_arg utce with
    | Option.none => Option.none
    | Option.some utce =>
      let project_short := if project_short = Option.some "" then Option.none else project_short
      let pulsar_name := if pulsar_name = Option.some "" then Option.none else pulsar_name
      let filters : List GQLFilter :=
        [{ field := "id", value := Val.ofOptInt id },
         { field := "pulsar_Name", value := Val.ofOptStr pulsar_name },
         { field := "telescope_Name", value := Val.ofOptStr telescope_name },
         { field := "project_Id", value := Val.ofOptInt project_id },
         { field := "project_Short", value := Val.ofOptStr project_short },
         { field := "utcStartGte", value := Val.ofOptStr utcs },
         { field := "utcStartLte", value := Val.ofOptStr utce },
         { field := "obsType", value := Val.str obs_type }]
      Option.some (GraphQLTable.list_graphql s s.table_name filters [] s.field_names)

/-- Embedding of `Observation.create` (27 parameters, all without default). -/
def Observation.create (s : TableState)
    (pulsarName telescopeName projectCode calibrationId ephemerisText frequency bandwidth nchan beam nant nantEff npol obsType utcStart raj decj duration nbit tsamp foldNbin foldNchan foldTsubint filterbankNbit filterbankNpol filterbankNchan filterbankTsamp filterbankDm : Val) : TableState × Req :=
  let s := { s with
      mutation_name := "createObservation",
      mutation := Observation.createMutation }
  let s := { s with
      varsDict := [("pulsarName", pulsarName),
        ("telescopeName", telescopeName),
        ("projectCode", projectCode),
        ("calibrationId", calibrationId),
        ("ephemerisText", ephemerisText),
        ("frequency", frequency),
        ("bandwidth", bandwidth),
        ("nchan", nchan),
        ("beam", beam),
        ("nant", nant),
        ("nantEff", nantEff),
        ("npol", npol),
        ("obsType", obsType),
        ("utcStart", utcStart),
        ("raj", raj),
        ("decj", decj),
        ("duration", duration),
        ("nbit", nbit),
        ("tsamp", tsamp),
        ("foldNbin", foldNbin),
        ("foldNchan", foldNchan),
        ("foldTsubint", foldTsubint),
        ("filterbankNbit", filterbankNbit),
        ("filterbankNpol", filterbankNpol),
        ("filterbankNchan", filterbankNchan),
        ("filterbankTsamp", filterbankTsamp),
        ("filterbankDm", filterbankDm)] }
  GraphQLTable.mutation_graphql s

/-- Embedding of `Observation.update` (28 parameters, all without default). -/
def Observation.update (s : TableState) (id : Val)
    (pulsarName telescopeName projectCode calibrationId ephemerisText frequency bandwidth nchan beam nant nantEff npol obsType utcStart raj decj duration nbit tsamp foldNbin foldNchan foldTsubint filterbankNbit filterbankNpol filterbankNchan filterbankTsamp filterbankDm : Val) : TableState × Req :=
  let s := { s with
      mutation_name := "updateObservation",
      mutation := Observation.updateMutation }
  let s := { s with
      varsDict := [("id", id),
        ("pulsarName", pulsarName),
        ("telescopeName", telescopeName),
        ("projectCode", projectCode),
        ("calibrationId", calibrationId),
        ("ephemerisText", ephemerisText),
        ("frequency", frequency),
        ("bandwidth", bandwidth),
        ("nchan", nchan),
        ("beam", beam),
        ("nant", nant),
        ("nantEff", nantEff),
        ("npol", npol),
        ("obsType", obsType),
        ("utcStart", utcStart),
        ("raj", raj),
        ("decj", decj),
        ("duration", duration),
        ("nbit", nbit),
        ("tsamp", tsamp),
        ("foldNbin", foldNbin),
        ("foldNchan", foldNchan),
        ("foldTsubint", foldTsubint),
        ("filterbankNbit", filterbankNbit),
        ("filterbankNpol", filterbankNpol),
        ("filterbankNchan", filterbankNchan),
        ("filterbankTsamp", filterbankTsamp),
        ("filterbankDm", filterbankDm)] }
  GraphQLTable.mutation_graphql s

/-- Embedding of `Observation.delete`. -/
def Observation.delete (s : TableState) (id : Int) : TableState × Req :=
  let s := { s with
      mutation_name := "deleteObservation",
      mutation := Observation.deleteMutation,
      varsDict := [("id", Val.int id)] }
  GraphQLTable.mutation_graphql s

/-- The dispatch skeleton of `Observation.process`: `create` is called with 12
positional arguments (`args.target` ... `args.comment`), `update` with 13
(`args.id` plus the same 12), `list` with 7 keyword arguments and `delete`
with 1. -/
def Observation.process_dispatch (subcommand : String) : Dispatch :=
  if subcommand = "create" then Dispatch.calls "create" 12
  else if subcommand = "update" then Dispatch.calls "update" 13
  else if subcommand = "list" then Dispatch.calls "list" 7
  else if subcommand = "delete" then Dispatch.calls "delete" 1
  else Dispatch.notImplementedError

/-- Methods defined on the `Observation` class. -/
def Observation.methods : List String := ["list", "create", "update", "delete"]

/-- Signature arity of `Observation.list` (8 parameters, all with default). -/
def Observation.list_arity : Arity := { required := 0, total := 8 }

/-- Signature arity of `Observation.create` (27 parameters, none with a
default). -/
def Observation.create_arity : Arity := { required := 27, total := 27 }

/-- Signature arity of `Observation.update` (28 parameters, none with a
default). -/
def Observation.update_arity : Arity := { required := 28, total := 28 }

/-- Signature arity of `Observation.delete(self, id)`. -/
def Observation.delete_arity : Arity := { required := 1, total := 1 }

/-- The lines of the hard-coded `createToa` mutation string of `toa.py`
(braces written as escapes). -/
def Toa.createMutationLines : List String :=
  ["",
   "        mutation (",
   "            $pipelineRunId: Int!,",
   "            $ephemerisId: Int!,",
   "            $templateId: Int!,",
   "            $toaLines: [String]!,",
   "            $dmCorrected: Boolean!,",
   "            $minimumNsubs: Boolean!,",
   "            $maximumNsubs: Boolean!,",
   "        ) \x7b",
   "            createToa (input: \x7b",
   "                pipelineRunId: $pipelineRunId,",
   "                ephemerisId: $ephemerisId,",
   "                templateId: $templateId,",
   "                toaLines: $toaLines,",
   "                dmCorrected: $dmCorrected,",
   "                minimumNsubs: $minimumNsubs,",
   "                maximumNsubs: $maximumNsubs,",
   "            \x7d) \x7b",
   "                toa \x7b",
   "                    id,",
   "                \x7d",
   "            \x7d",
   "        \x7d",
   "        "]

/-- The hard-coded `createToa` mutation string of `toa.py`. -/
def Toa.createMutation : String :=
  String.intercalate "\n" Toa.createMutationLines

/-- The lines of the hard-coded `deleteToa` mutation string of `toa.py`
(braces written as escapes). -/
def Toa.deleteMutationLines : List String :=
  ["",
   "        mutation ($id: Int!) \x7b",
   "            deleteToa(id: $id) \x7b",
   "                ok",
   "            \x7d",
   "        \x7d",
   "        "]

/-- The hard-coded `deleteToa` mutation string of `toa.py`. -/
def Toa.deleteMutation : String :=
  String.intercalate "\n" Toa.deleteMutationLines

/-- A record of a GraphQL response as a Python dict: an association list with
unique keys. -/
abbrev Dict : Type := List (String × Val)

/-- Python `d[k]` read access: `Option.none` models a `KeyError`. -/
def dictGet (k : String) (d : Dict) : Option Val :=
  List.lookup k d

/-- Python `d[k] = v`: replace the value in place if the key exists, append
the pair otherwise. -/
def dictSet (k : String) (v : Val) (d : Dict) : Dict :=
  if (List.lookup k d).isSome then
    List.map (fun p => if p.1 == k then (p.1, v) else p) d
  else d ++ [(k, v)]

/-- Python `del d[k]`: `Option.none` models the `KeyError` raised when the
key is absent. -/
def dictDel (k : String) (d : Dict) : Option Dict :=
  if (List.lookup k d).isSome then
    Option.some (List.eraseP (fun p => p.1 == k) d)
  else Option.none

/-- Modelled from the spec: `toa_dict_to_line` of `psrdb/utils/toa.py` is not
among the given sources and the specification does not constrain the line it
produces, only that each record is "converted" to one line; it is modelled as
an arbitrary fixed serialisation of the record. -/
def toa_dict_to_line (d : Dict) : String :=
  String.intercalate " " (List.map (fun p => p.1) d)

/-- State of a `Toa` object right after `Toa.__init__`. -/
def Toa.init : TableState :=
  { GraphQLTable.base with
      table_name := "toa",
      field_names := ["id", "pipelineRun\x7b id \x7d", "ephemeris \x7b id \x7d",
        "template \x7b id \x7d", "archive", "freqMhz", "mjd", "mjdErr",
        "telescope", "fe", "be", "f", "bw", "tobs", "tmplt", "gof", "nbin",
        "nch", "chan", "rcvr", "snr", "length", "subint"] }

/-- The filter clause `Toa.list` and `Toa.download` build: five fixed records
plus `minimumNsubs` / `maximumNsubs` records appended only when the
corresponding argument is truthy. -/
def Toa.buildFilters (id : Option Int) (pulsar : Val) (pipeline_run_id : Option Int)
    (dm_corrected minimum_nsubs maximum_nsubs : Option Bool)
    (obs_nchan : Option Int) : List GQLFilter :=
  let filters : List GQLFilter :=
    [{ field := "id", value := Val.ofOptInt id },
     { field := "pulsar", value := pulsar },
     { field := "pipelineRunId", value := Val.ofOptInt pipeline_run_id },
     { field := "dmCorrected", value := Val.ofOptBool dm_corrected },
     { field := "obsNchan", value := Val.ofOptInt obs_nchan }]
  let filters := if truthy minimum_nsubs then
      filters ++ [{ field := "minimumNsubs", value := Val.ofOptBool minimum_nsubs }]
    else filters
  let filters := if truthy maximum_nsubs then
      filters ++ [{ field := "maximumNsubs", value := Val.ofOptBool maximum_nsubs }]
    else filters
  filters

/-- Embedding of `Toa.list`. -/
def Toa.list (s : TableState) (id : Option Int) (pulsar : Option String)
    (pipeline_run_id : Option Int) (dm_corrected minimum_nsubs maximum_nsubs : Option Bool)
    (obs_nchan : Option Int) : TableState × Req :=
  let filters := Toa.buildFilters id (Val.ofOptStr pulsar) pipeline_run_id
    dm_corrected minimum_nsubs maximum_nsubs obs_nchan
  GraphQLTable.list_graphql s s.table_name filters [] s.field_names

/-- Embedding of `Toa.create`. -/
def Toa.create (s : TableState)
    (pipeline_run_id ephemeris_id template_id toa_lines : Val)
    (dmCorrected minimumNsubs maximumNsubs : Val) : TableState × Req :=
  let s := { s with
      mutation_name := "createToa",
      mutation := Toa.createMutation }
  let s := { s with
      varsDict := [("pipelineRunId", pipeline_run_id),
        ("ephemerisId", ephemeris_id),
        ("templateId", template_id),
        ("toaLines", toa_lines),
        ("dmCorrected", dmCorrected),
        ("minimumNsubs", minimumNsubs),
        ("maximumNsubs", maximumNsubs)] }
  GraphQLTable.mutation_graphql s

/-- Embedding of `Toa.delete`. -/
def Toa.delete (s : TableState) (id : Int) : TableState × Req :=
  let s := { s with
      mutation_name := "deleteToa",
      mutation := Toa.deleteMutation,
      varsDict := [("id", Val.int id)] }
  GraphQLTable.mutation_graphql s

/-- The output file name `Toa.download` builds by successive appends. -/
def Toa.download_output_name (pulsar : String) (id pipeline_run_id : Option Int)
    (dm_corrected minimum_nsubs maximum_nsubs : Option Bool)
    (obs_nchan : Option Int) : String :=
  let output_name := "toa_" ++ pulsar
  let output_name := match id with
    | Option.some i => output_name ++ "_id" ++ toString i
    | Option.none => output_name
  let output_name := match pipeline_run_id with
    | Option.some i => output_name ++ "_pipeline_run_id" ++ toString i
    | Option.none => output_name
  let output_name := if truthy dm_corrected then output_name ++ "_dm_corrected" else output_name
  let output_name := if truthy minimum_nsubs then output_name ++ "_minimum_nsubs" else output_name
  let output_name := if truthy maximum_nsubs then output_name ++ "_maximum_nsubs" else output_name
  let output_name := match obs_nchan with
    | Option.some n => output_name ++ "_nchan" ++ toString n
    | Option.none => output_name
  output_name ++ ".tim"

/-- The in-place conversion `Toa.download` applies to each returned record
before `toa_dict_to_line`: delete `pipelineRun`, `ephemeris` and `template`,
copy `freqMhz` to `freq_MHz` and `mjdErr` to `mjd_err`, then delete `freqMhz`
and `mjdErr` (any `KeyError` is `Option.none`). -/
def Toa.toa_line_transform (d : Dict) : Option Dict := do
  let d ← dictDel "pipelineRun" d
  let d ← dictDel "ephemeris" d
  let d ← dictDel "template" d
  let f ← dictGet "freqMhz" d
  let d := dictSet "freq_MHz" f d
  let m ← dictGet "mjdErr" d
  let d := dictSet "mjd_err" m d
  let d ← dictDel "freqMhz" d
  let d ← dictDel "mjdErr" d
  pure d

/-- Embedding of `Toa.download`.  The records returned by the shared client
for the list request are an input (`response`); the result is the new state
(`get_dicts` set), the forwarded list request, the output file name and the
lines written to the file. -/
def Toa.download (s : TableState) (pulsar : String) (id pipeline_run_id : Option Int)
    (dm_corrected minimum_nsubs maximum_nsubs : Option Bool) (obs_nchan : Option Int)
    (response : List Dict) : Option (TableState × Req × String × List String) :=
  let filters := Toa.buildFilters id (Val.str pulsar) pipeline_run_id
    dm_corrected minimum_nsubs maximum_nsubs obs_nchan
  let s := { s with get_dicts := true }
  let req := (GraphQLTable.list_graphql s s.table_name filters [] s.field_names).2
  let output_name := Toa.download_output_name pulsar id pipeline_run_id
    dm_corrected minimum_nsubs maximum_nsubs obs_nchan
  match List.mapM Toa.toa_line_transform response with
  | Option.some ts =>
    Option.some (s, req, output_name, "FORMAT 1" :: List.map toa_dict_to_line ts)
  | Option.none => Option.none

/-- The dispatch skeleton of `Toa.process`: `create` is called (once per TOA
line) with 7 positional arguments, `delete` with 1, `list` with 5 and
`download` with 7; there is no `update` branch, so that subcommand reaches
the `raise RuntimeError` branch. -/
def Toa.process_dispatch (subcommand : String) : Dispatch :=
  if subcommand = "create" then Dispatch.calls "create" 7
  else if subcommand = "delete" then Dispatch.calls "delete" 1
  else if subcommand = "list" then Dispatch.calls "list" 5
  else if subcommand = "download" then Dispatch.calls "download" 7
  else Dispatch.notImplementedError

/-- Methods defined on the `Toa` class. -/
def Toa.methods : List String := ["list", "create", "delete", "download"]

/-- Signature arity of `Toa.list` (7 parameters, all with default). -/
def Toa.list_arity : Arity := { required := 0, total := 7 }

/-- Signature arity of `Toa.create` (7 parameters, none with a default). -/
def Toa.create_arity : Arity := { required := 7, total := 7 }

/-- Signature arity of `Toa.delete(self, id)`. -/
def Toa.delete_arity : Arity := { required := 1, total := 1 }

/-- Signature arity of `Toa.download` (`pulsar` required, 6 parameters with
default). -/
def Toa.download_arity : Arity := { required := 1, total := 7 }

/-- Embedding of the URL/token guard in `main` of `scripts/psrdb.py`: the
entry point raises a `RuntimeError` of its own when no GraphQL URL or token
is configured. -/
def main_url_token_check (url token : Option String) : Except String Unit :=
  if url = Option.none then
    Except.error "GraphQL URL must be provided in $PSRDB_URL or via -u option"
  else if token = Option.none then
    Except.error "GraphQL Token must be provided in $PSRDB_TOKEN or via -t option"
  else Except.ok ()

/-- Filter clause of `Pulsar.list` as the (amended) spec describes it: a
single record for the `name` parameter; the `id` parameter contributes
nothing. -/
def pulsarFiltersSpec (name : Option String) : List GQLFilter :=
  [{ field := "name", value := Val.ofOptStr name }]

/-- Filter clause of `Calibration.list` as the spec describes it: one
`{field, value}` record per filter parameter, with the fixed field names `id`
and `type` and the values taken unchanged. -/
def calibrationFiltersSpec (id : Option Int) (type : Option String) :
    List GQLFilter :=
  [{ field := "id", value := Val.ofOptInt id },
   { field := "type", value := Val.ofOptStr type }]

/-- Filter clause of `Observation.list` as the spec describes it: one record
per filter parameter with the module's fixed field names, values unchanged
except for the module's normalisation (UTC bounds parsed and reformatted,
empty strings becoming `None`). -/
def observationFiltersSpec (id : Option Int)
    (pulsar_name telescope_name : Option String) (project_id : Option Int)
    (project_short : Option String) (utcs utce : Option String)
    (obs_type : String) : Option (List GQLFilter) :=
  match normalize_utc_arg utcs, normalize_utc_arg utce with
  | Option.some u, Option.some e =>
    Option.some
      [{ field := "id", value := Val.ofOptInt id },
       { field := "pulsar_Name",
         value := Val.ofOptStr (if pulsar_name = Option.some "" then Option.none else pulsar_name) },
       { field := "telescope_Name", value := Val.ofOptStr telescope_name },
       { field := "project_Id", value := Val.ofOptInt project_id },
       { field := "project_Short",
         value := Val.ofOptStr (if project_short = Option.some "" then Option.none else project_short) },
       { field := "utcStartGte", value := Val.ofOptStr u },
       { field := "utcStartLte", value := Val.ofOptStr e },
       { field := "obsType", value := Val.str obs_type }]
  | _, _ => Option.none

/-- Filter clause of `Toa.list` as the (amended) spec describes it: records
for `id`, `pulsar`, `pipelineRunId`, `dmCorrected` and `obsNchan` always,
then a `minimumNsubs` and a `maximumNsubs` record exactly when the
corresponding argument is truthy. -/
def toaFiltersSpec (id : Option Int) (pulsar : Option String)
    (pipeline_run_id : Option Int)
    (dm_corrected minimum_nsubs maximum_nsubs : Option Bool)
    (obs_nchan : Option Int) : List GQLFilter :=
  [{ field := "id", value := Val.ofOptInt id },
   { field := "pulsar", value := Val.ofOptStr pulsar },
   { field := "pipelineRunId", value := Val.ofOptInt pipeline_run_id },
   { field := "dmCorrected", value := Val.ofOptBool dm_corrected },
   { field := "obsNchan", value := Val.ofOptInt obs_nchan }]
  ++ (if truthy minimum_nsubs then
        [{ field := "minimumNsubs", value := Val.ofOptBool minimum_nsubs }]
      else [])
  ++ (if truthy maximum_nsubs then
        [{ field := "maximumNsubs", value := Val.ofOptBool maximum_nsubs }]
      else [])

/-- Output name of `Toa.download` as the claim describes it: it starts with
`toa_<pulsar>`, appends one suffix per set filter argument in the fixed order
`id`, `pipeline_run_id`, `dm_corrected`, `minimum_nsubs`, `maximum_nsubs`,
`nchan` (truthiness for the boolean ones), and ends with `.tim`. -/
def toaOutputNameSpec (pulsar : String) (id pipeline_run_id : Option Int)
    (dm_corrected minimum_nsubs maximum_nsubs : Option Bool)
    (obs_nchan : Option Int) : String :=
  "toa_" ++ pulsar
    ++ (match id with
        | Option.some i => "_id" ++ toString i
        | Option.none => "")
    ++ (match pipeline_run_id with
        | Option.some i => "_pipeline_run_id" ++ toString i
        | Option.none => "")
    ++ (if truthy dm_corrected then "_dm_corrected" else "")
    ++ (if truthy minimum_nsubs then "_minimum_nsubs" else "")
    ++ (if truthy maximum_nsubs then "_maximum_nsubs" else "")
    ++ (match obs_nchan with
        | Option.some n => "_nchan" ++ toString n
        | Option.none => "")
    ++ ".tim"

/-- Claim C1: the claim states that every `process` dispatch constructs a
well-formed call of the selected operation (the number of positional
arguments supplies every non-optional parameter), in particular
`Observation.process` under `create` and `update` and `Calibration.process`
under `update`.  The code violates this: `Observation.process` passes 12
arguments to `Observation.create`, which declares 27 required parameters, 13
arguments to `Observation.update`, which declares 28, and
`Calibration.process` passes 3 arguments to `Calibration.update`, which
declares 4 — each of those dispatches raises a `TypeError` in Python.  All
remaining dispatches of the four modules are well-formed.  This theorem
records the evaluation of the dispatch and arity model at every subcommand,
including the three failing ones. -/
theorem process_call_arity :
    (Pulsar.process_dispatch "create" = Dispatch.calls "create" 2 ∧ wellFormedCall 2 Pulsar.create_arity = true)
  ∧ (Pulsar.process_dispatch "update" = Dispatch.calls "update" 3 ∧ wellFormedCall 3 Pulsar.update_arity = true)
  ∧ (Pulsar.process_dispatch "list" = Dispatch.calls "list" 2 ∧ wellFormedCall 2 Pulsar.list_arity = true)
  ∧ (Pulsar.process_dispatch "delete" = Dispatch.calls "delete" 1 ∧ wellFormedCall 1 Pulsar.delete_arity = true)
  ∧ (Calibration.process_dispatch "create" = Dispatch.calls "create" 3 ∧ wellFormedCall 3 Calibration.create_arity = true)
  ∧ (Calibration.process_dispatch "list" = Dispatch.calls "list" 2 ∧ wellFormedCall 2 Calibration.list_arity = true)
  ∧ (Calibration.process_dispatch "delete" = Dispatch.calls "delete" 1 ∧ wellFormedCall 1 Calibration.delete_arity = true)
  ∧ (Toa.process_dispatch "create" = Dispatch.calls "create" 7 ∧ wellFormedCall 7 Toa.create_arity = true)
  ∧ (Toa.process_dispatch "delete" = Dispatch.calls "delete" 1 ∧ wellFormedCall 1 Toa.delete_arity = true)
  ∧ (Toa.process_dispatch "list" = Dispatch.calls "list" 5 ∧ wellFormedCall 5 Toa.list_arity = true)
  ∧ (Toa.process_dispatch "download" = Dispatch.calls "download" 7 ∧ wellFormedCall 7 Toa.download_arity = true)
  ∧ (Observation.process_dispatch "list" = Dispatch.calls "list" 7 ∧ wellFormedCall 7 Observation.list_arity = true)
  ∧ (Observation.process_dispatch "delete" = Dispatch.calls "delete" 1 ∧ wellFormedCall 1 Observation.delete_arity = true)
  ∧ (Observation.process_dispatch "create" = Dispatch.calls "create" 12
      ∧ Observation.create_arity = { required := 27, total := 27 }
      ∧ wellFormedCall 12 Observation.create_arity = false)
  ∧ (Observation.process_dispatch "update" = Dispatch.calls "update" 13
      ∧ Observation.update_arity = { required := 28, total := 28 }
      ∧ wellFormedCall 13 Observation.update_arity = false)
  ∧ (Calibration.process_dispatch "update" = Dispatch.calls "update" 3
      ∧ Calibration.update_arity = { required := 4, total := 4 }
      ∧ wellFormedCall 3 Calibration.update_arity = false) := by decide

/-- Claim C2 (counterexample): `Toa.process` with subcommand `update` does
not dispatch to an update operation: it reaches the
`raise RuntimeError(... " command is not implemented")` branch, and the `Toa`
class defines no update method at all (even though `configure_parsers`
registers an `update` sub-parser). -/
theorem toa_update_subcommand_unimplemented :
    Toa.process_dispatch "update" = Dispatch.notImplementedError
  ∧ Toa.methods.contains "update" = false := by decide

/-- Claim C2 (amended): `Pulsar`, `Observation` and `Calibration` expose the
subcommands `list`, `create`, `update` and `delete`, each dispatching to an
implemented operation of the class; `Toa` exposes `list`, `create`, `delete`
(and `download`), while `toa update` reaches the "command is not implemented"
error branch. -/
theorem crud_dispatch_coverage :
    (Pulsar.process_dispatch "list" = Dispatch.calls "list" 2 ∧ Pulsar.methods.contains "list" = true)
  ∧ (Pulsar.process_dispatch "create" = Dispatch.calls "create" 2 ∧ Pulsar.methods.contains "create" = true)
  ∧ (Pulsar.process_dispatch "update" = Dispatch.calls "update" 3 ∧ Pulsar.methods.contains "update" = true)
  ∧ (Pulsar.process_dispatch "delete" = Dispatch.calls "delete" 1 ∧ Pulsar.methods.contains "delete" = true)
  ∧ (Observation.process_dispatch "list" = Dispatch.calls "list" 7 ∧ Observation.methods.contains "list" = true)
  ∧ (Observation.process_dispatch "create" = Dispatch.calls "create" 12 ∧ Observation.methods.contains "create" = true)
  ∧ (Observation.process_dispatch "update" = Dispatch.calls "update" 13 ∧ Observation.methods.contains "update" = true)
  ∧ (Observation.process_dispatch "delete" = Dispatch.calls "delete" 1 ∧ Observation.methods.contains "delete" = true)
  ∧ (Calibration.process_dispatch "list" = Dispatch.calls "list" 2 ∧ Calibration.methods.contains "list" = true)
  ∧ (Calibration.process_dispatch "create" = Dispatch.calls "create" 3 ∧ Calibration.methods.contains "create" = true)
  ∧ (Calibration.process_dispatch "update" = Dispatch.calls "update" 3 ∧ Calibration.methods.contains "update" = true)
  ∧ (Calibration.process_dispatch "delete" = Dispatch.calls "delete" 1 ∧ Calibration.methods.contains "delete" = true)
  ∧ (Toa.process_dispatch "list" = Dispatch.calls "list" 5 ∧ Toa.methods.contains "list" = true)
  ∧ (Toa.process_dispatch "create" = Dispatch.calls "create" 7 ∧ Toa.methods.contains "create" = true)
  ∧ (Toa.process_dispatch "delete" = Dispatch.calls "delete" 1 ∧ Toa.methods.contains "delete" = true)
  ∧ (Toa.process_dispatch "download" = Dispatch.calls "download" 7 ∧ Toa.methods.contains "download" = true)
  ∧ (Toa.process_dispatch "update" = Dispatch.notImplementedError ∧ Toa.methods.contains "update" = false) := by
  decide

/-- Claim C3 (counterexample): `Calibration.update` binds the variable
`schedule_block_id`, but its hard-coded mutation string declares only `$id`,
`$calibration_type` and `$location` — the bound variables are not exactly the
declared ones. -/
theorem calibration_update_undeclared_variable :
    sameSet (List.map Prod.fst (Calibration.update Calibration.init 1
        (Val.str "20201022-0018") (Val.str "pre") (Val.str "/data/cal.sol")).2.vars)
      (declaredVars Calibration.updateMutationLines) = false
  ∧ (List.map Prod.fst (Calibration.update Calibration.init 1
        (Val.str "20201022-0018") (Val.str "pre") (Val.str "/data/cal.sol")).2.vars).contains
      "schedule_block_id" = true
  ∧ (declaredVars Calibration.updateMutationLines).contains "schedule_block_id" = false := by
  decide

/-- Claim C3 (amended): for every mutation operation of every entity module
except `Calibration.update`, the keys of the variables dictionary are exactly
the GraphQL variables declared in the hard-coded mutation string;
`Calibration.update` additionally binds `schedule_block_id`, which its
mutation does not declare. -/
theorem mutation_variable_binding_exact :
    (∀ (s : TableState) (name : String) (comment : Option String),
      sameSet (List.map Prod.fst (Pulsar.create s name comment).2.vars)
        (declaredVars Pulsar.createMutationLines) = true)
  ∧ (∀ (s : TableState) (id : Int) (name : String) (comment : Option String),
      sameSet (List.map Prod.fst (Pulsar.update s id name comment).2.vars)
        (declaredVars Pulsar.updateMutationLines) = true)
  ∧ (∀ (s : TableState) (id : Int),
      sameSet (List.map Prod.fst (Pulsar.delete s id).2.vars)
        (declaredVars Pulsar.deleteMutationLines) = true)
  ∧ (∀ (s : TableState) (sb ty loc : Val),
      sameSet (List.map Prod.fst (Calibration.create s sb ty loc).2.vars)
        (declaredVars Calibration.createMutationLines) = true)
  ∧ (∀ (s : TableState) (id : Int),
      sameSet (List.map Prod.fst (Calibration.delete s id).2.vars)
        (declaredVars Calibration.deleteMutationLines) = true)
  ∧ (∀ (s : TableState) (a b c d e f g h i j k l m n o p q r t u v w x y z aa ab : Val),
      sameSet (List.map Prod.fst (Observation.create s a b c d e f g h i j k l m n o p q r t u v w x y z aa ab).2.vars)
        (declaredVars Observation.createMutationLines) = true)
  ∧ (∀ (s : TableState) (id : Val) (a b c d e f g h i j k l m n o p q r t u v w x y z aa ab : Val),
      sameSet (List.map Prod.fst (Observation.update s id a b c d e f g h i j k l m n o p q r t u v w x y z aa ab).2.vars)
        (declaredVars Observation.updateMutationLines) = true)
  ∧ (∀ (s : TableState) (id : Int),
      sameSet (List.map Prod.fst (Observation.delete s id).2.vars)
        (declaredVars Observation.deleteMutationLines) = true)
  ∧ (∀ (s : TableState) (a b c d e f g : Val),
      sameSet (List.map Prod.fst (Toa.create s a b c d e f g).2.vars)
        (declaredVars Toa.createMutationLines) = true)
  ∧ (∀ (s : TableState) (id : Int),
      sameSet (List.map Prod.fst (Toa.delete s id).2.vars)
        (declaredVars Toa.deleteMutationLines) = true) := by
  exact ⟨by intros; rfl, by intros; rfl, by intros; rfl, by intros; rfl,
    by intros; rfl, by intros; rfl, by intros; rfl, by intros; rfl,
    by intros; rfl, by intros; rfl⟩

/-- Claim C4 (counterexample): the client does raise errors of its own:
every `process` method raises a `RuntimeError` for an unrecognised
subcommand, and `main` raises a `RuntimeError` when no URL or no token is
configured — these errors do not originate from an HTTP response. -/
theorem client_own_errors_exist :
    Pulsar.process_dispatch "frobnicate" = Dispatch.notImplementedError
  ∧ main_url_token_check Option.none (Option.some "abc123") =
      Except.error "GraphQL URL must be provided in $PSRDB_URL or via -u option"
  ∧ main_url_token_check (Option.some "http://localhost:8000/graphql/") Option.none =
      Except.error "GraphQL Token must be provided in $PSRDB_TOKEN or via -t option" :=
  ⟨rfl, rfl, rfl⟩

/-- Claim C4 (amended): the client's own failure handling is exactly this:
each entity's `process` raises a `RuntimeError` precisely for a subcommand
outside its implemented set, and `main` fails precisely when the URL or the
token is missing (with the two fixed messages shown in
`client_own_errors_exist`); all other errors surface from the HTTP
response. -/
theorem error_branch_characterisation :
    (∀ sub : String, decide (Pulsar.process_dispatch sub = Dispatch.notImplementedError)
        = !(decide (sub = "create") || decide (sub = "update") || decide (sub = "list") || decide (sub = "delete")))
  ∧ (∀ sub : String, decide (Calibration.process_dispatch sub = Dispatch.notImplementedError)
        = !(decide (sub = "create") || decide (sub = "list") || decide (sub = "update") || decide (sub = "delete")))
  ∧ (∀ sub : String, decide (Observation.process_dispatch sub = Dispatch.notImplementedError)
        = !(decide (sub = "create") || decide (sub = "update") || decide (sub = "list") || decide (sub = "delete")))
  ∧ (∀ sub : String, decide (Toa.process_dispatch sub = Dispatch.notImplementedError)
        = !(decide (sub = "create") || decide (sub = "delete") || decide (sub = "list") || decide (sub = "download")))
  ∧ (∀ url token : Option String,
      (main_url_token_check url token).isOk = (url.isSome && token.isSome)) := by
  refine ⟨?_, ?_, ?_, ?_, ?_⟩
  · intro sub
    unfold Pulsar.process_dispatch
    split_ifs with h1 h2 h3 h4 <;> simp_all
  · intro sub
    unfold Calibration.process_dispatch
    split_ifs with h1 h2 h3 h4 <;> simp_all
  · intro sub
    unfold Observation.process_dispatch
    split_ifs with h1 h2 h3 h4 <;> simp_all
  · intro sub
    unfold Toa.process_dispatch
    split_ifs with h1 h2 h3 h4 <;> simp_all
  · intro url token
    cases url <;> cases token <;> rfl


/-- A key that does not occur in a dict looks up to `None`. -/
theorem dictGet_eq_none_of_not_mem (k : String) (d : Dict)
    (h : k ∉ List.map Prod.fst d) : dictGet k d = Option.none := by
  induction d with
  | nil => rfl
  | cons p rest ih =>
    rcases p with ⟨a, b⟩
    simp only [List.map_cons, List.mem_cons] at h
    push_neg at h
    have hk : (k == a) = false := beq_eq_false_iff_ne.mpr h.1
    show List.lookup k ((a, b) :: rest) = Option.none
    simp only [List.lookup, hk]
    exact ih h.2

/-- A key that looks up to `None` does not occur in the dict. -/
theorem not_mem_keys_of_dictGet_none (k : String) (d : Dict)
    (h : dictGet k d = Option.none) : k ∉ List.map Prod.fst d := by
  induction d with
  | nil => simp
  | cons p rest ih =>
    rcases p with ⟨a, b⟩
    simp only [dictGet, List.lookup] at h
    rcases hk : k == a with _ | _
    · rw [hk] at h
      simp only [List.map_cons, List.mem_cons]
      push_neg
      exact ⟨by simpa using hk, ih h⟩
    · rw [hk] at h
      simp at h

/-- Deleting one key leaves the lookup of every other key unchanged. -/
theorem dictGet_eraseP_ne (k k2 : String) (d : Dict) (h : (k2 == k) = false) :
    dictGet k2 (List.eraseP (fun p => p.1 == k) d) = dictGet k2 d := by
  induction d with
  | nil => rfl
  | cons p rest ih =>
    rcases p with ⟨a, b⟩
    rcases hp : a == k with _ | _
    · rw [List.eraseP_cons]
      simp only [hp, cond_false]
      show List.lookup k2 ((a, b) :: List.eraseP (fun p => p.1 == k) rest)
          = List.lookup k2 ((a, b) :: rest)
      simp only [List.lookup]
      rcases hq : k2 == a with _ | _
      · exact ih
      · rfl
    · have hpk : a = k := by simpa using hp
      have hne : (k2 == a) = false := by rw [hpk]; exact h
      rw [List.eraseP_cons]
      simp only [hp, cond_true]
      show dictGet k2 rest = List.lookup k2 ((a, b) :: rest)
      simp only [List.lookup, hne]
      rfl

/-- After deleting a key from a dict with distinct keys, the key looks up to `None`. -/
theorem dictGet_eraseP_self (k : String) (d : Dict)
    (h : (List.map Prod.fst d).Nodup) :
    dictGet k (List.eraseP (fun p => p.1 == k) d) = Option.none := by
  induction d with
  | nil => rfl
  | cons p rest ih =>
    rcases p with ⟨a, b⟩
    simp only [List.map_cons, List.nodup_cons] at h
    rcases hp : a == k with _ | _
    · have hak : ¬ a = k := by simpa using hp
      have hne : (k == a) = false := beq_eq_false_iff_ne.mpr (fun hh => hak hh.symm)
      rw [List.eraseP_cons]
      simp only [hp, cond_false]
      show List.lookup k ((a, b) :: List.eraseP (fun p => p.1 == k) rest) = Option.none
      simp only [List.lookup, hne]
      exact ih h.2
    · have hpk : a = k := by simpa using hp
      rw [List.eraseP_cons]
      simp only [hp, cond_true]
      apply dictGet_eq_none_of_not_mem
      rw [← hpk]
      exact h.1


/-- In-place replacement stores the new value under a present key. -/
theorem lookup_mapReplace_self (k : String) (v : Val) (d : Dict)
    (h : (dictGet k d).isSome = true) :
    dictGet k (List.map (fun p => if p.1 == k then (p.1, v) else p) d) = Option.some v := by
  induction d with
  | nil => simp [dictGet, List.lookup] at h
  | cons p rest ih =>
    rcases p with ⟨a, b⟩
    rcases ha : a == k with _ | _
    · have hne : (k == a) = false := by
        have : ¬ a = k := by simpa using ha
        exact beq_eq_false_iff_ne.mpr (fun hh => this hh.symm)
      simp only [dictGet, List.lookup, hne] at h
      show List.lookup k ((if (a == k) = true then (a, v) else (a, b)) ::
        List.map (fun p => if p.1 == k then (p.1, v) else p) rest) = Option.some v
      simp only [ha]
      show List.lookup k ((a, b) :: List.map (fun p => if p.1 == k then (p.1, v) else p) rest)
          = Option.some v
      simp only [List.lookup, hne]
      exact ih h
    · have hak : a = k := by simpa using ha
      have heq : (k == a) = true := by rw [hak]; exact beq_self_eq_true k
      show List.lookup k ((if (a == k) = true then (a, v) else (a, b)) ::
        List.map (fun p => if p.1 == k then (p.1, v) else p) rest) = Option.some v
      simp only [ha]
      show List.lookup k ((a, v) :: List.map (fun p => if p.1 == k then (p.1, v) else p) rest)
          = Option.some v
      simp only [List.lookup, heq]

/-- In-place replacement leaves other keys unchanged. -/
theorem lookup_mapReplace_ne (k k2 : String) (v : Val) (d : Dict)
    (h : (k2 == k) = false) :
    dictGet k2 (List.map (fun p => if p.1 == k then (p.1, v) else p) d) = dictGet k2 d := by
  induction d with
  | nil => rfl
  | cons p rest ih =>
    rcases p with ⟨a, b⟩
    rcases ha : a == k with _ | _
    · show List.lookup k2 ((if (a == k) = true then (a, v) else (a, b)) ::
        List.map (fun p => if p.1 == k then (p.1, v) else p) rest)
          = List.lookup k2 ((a, b) :: rest)
      simp only [ha]
      show List.lookup k2 ((a, b) :: List.map (fun p => if p.1 == k then (p.1, v) else p) rest)
          = List.lookup k2 ((a, b) :: rest)
      simp only [List.lookup]
      rcases hq : k2 == a with _ | _
      · exact ih
      · rfl
    · have hak : a = k := by simpa using ha
      have hne : (k2 == a) = false := by rw [hak]; exact h
      show List.lookup k2 ((if (a == k) = true then (a, v) else (a, b)) ::
        List.map (fun p => if p.1 == k then (p.1, v) else p) rest)
          = List.lookup k2 ((a, b) :: rest)
      simp only [ha]
      show List.lookup k2 ((a, v) :: List.map (fun p => if p.1 == k then (p.1, v) else p) rest)
          = List.lookup k2 ((a, b) :: rest)
      simp only [List.lookup, hne]
      exact ih

/-- Appending a fresh key makes it look up to the appended value. -/
theorem lookup_append_single_self (k : String) (v : Val) (d : Dict)
    (h : dictGet k d = Option.none) :
    dictGet k (d ++ [(k, v)]) = Option.some v := by
  induction d with
  | nil => simp [dictGet, List.lookup]
  | cons p rest ih =>
    rcases p with ⟨a, b⟩
    simp only [dictGet, List.lookup] at h
    rcases hq : k == a with _ | _
    · rw [hq] at h
      show List.lookup k ((a, b) :: (rest ++ [(k, v)])) = Option.some v
      simp only [List.lookup, hq]
      exact ih h
    · rw [hq] at h
      simp at h

/-- Appending one key leaves the lookup of every other key unchanged. -/
theorem lookup_append_single_ne (k k2 : String) (v : Val) (d : Dict)
    (h : (k2 == k) = false) :
    dictGet k2 (d ++ [(k, v)]) = dictGet k2 d := by
  induction d with
  | nil =>
    show List.lookup k2 [(k, v)] = Option.none
    simp only [List.lookup, h]
  | cons p rest ih =>
    rcases p with ⟨a, b⟩
    show List.lookup k2 ((a, b) :: (rest ++ [(k, v)])) = List.lookup k2 ((a, b) :: rest)
    simp only [List.lookup]
    rcases hq : k2 == a with _ | _
    · exact ih
    · rfl

/-- Python dict assignment stores the assigned value. -/
theorem dictGet_dictSet_self (k : String) (v : Val) (d : Dict) :
    dictGet k (dictSet k v d) = Option.some v := by
  unfold dictSet
  split
  · exact lookup_mapReplace_self k v d (by assumption)
  · next hs =>
      exact lookup_append_single_self k v d (Option.not_isSome_iff_eq_none.mp hs)

/-- Python dict assignment leaves other keys unchanged. -/
theorem dictGet_dictSet_ne (k k2 : String) (v : Val) (d : Dict)
    (h : (k2 == k) = false) :
    dictGet k2 (dictSet k v d) = dictGet k2 d := by
  unfold dictSet
  split
  · exact lookup_mapReplace_ne k k2 v d h
  · exact lookup_append_single_ne k k2 v d h

/-- Deletion preserves distinctness of the keys. -/
theorem nodup_keys_eraseP (k : String) (d : Dict)
    (h : (List.map Prod.fst d).Nodup) :
    (List.map Prod.fst (List.eraseP (fun p => p.1 == k) d)).Nodup :=
  List.Nodup.sublist (List.Sublist.map Prod.fst (List.eraseP_sublist d)) h

/-- Assignment preserves distinctness of the keys. -/
theorem nodup_keys_dictSet (k : String) (v : Val) (d : Dict)
    (h : (List.map Prod.fst d).Nodup) :
    (List.map Prod.fst (dictSet k v d)).Nodup := by
  unfold dictSet
  split
  · rw [List.map_map]
    have hcomp : (Prod.fst ∘ fun p : String × Val => if p.1 == k then (p.1, v) else p)
        = Prod.fst := by
      funext p
      by_cases hp : (p.1 == k) = true
      · simp [Function.comp, hp]
      · simp [Function.comp, hp]
    rw [hcomp]
    exact h
  · next hs =>
    have hk : k ∉ List.map Prod.fst d :=
      not_mem_keys_of_dictGet_none k d (Option.not_isSome_iff_eq_none.mp hs)
    rw [List.map_append]
    simp [List.nodup_append, h, hk]

/-- A successful `del d[k]` returns the dict with the first `k` entry erased. -/
theorem dictDel_eq (k : String) (d e : Dict) (h : dictDel k d = Option.some e) :
    e = List.eraseP (fun p => p.1 == k) d := by
  unfold dictDel at h
  split at h
  · exact (Option.some_inj.mp h).symm
  · simp at h


/-- Claim C5 (counterexample): the filter clause is not always built from
exactly the operation's filter parameters.  `Pulsar.list` has the two filter
parameters `id` and `name`, yet the forwarded clause holds a single record,
built from `name` alone — no record carries the `id` value 37.  And
`Toa.list` with a set (but falsy) `minimum_nsubs` builds only five records
for its seven filter parameters. -/
theorem filters_not_one_per_parameter :
    (Pulsar.list Pulsar.init (Option.some 37) (Option.some "J0437-4715")).2.filters
      = [{ field := "name", value := Val.str "J0437-4715" }]
  ∧ List.length (Pulsar.list Pulsar.init (Option.some 37) (Option.some "J0437-4715")).2.filters = 1
  ∧ List.length (Toa.list Toa.init Option.none Option.none Option.none Option.none
      (Option.some false) Option.none Option.none).2.filters = 5 := by decide

/-- Claim C5 (amended): for `Calibration.list` and `Observation.list` the
forwarded filter clause is one `{field, value}` record per filter parameter,
with the module's fixed field names and the values unchanged except for the
module's normalisation; `Toa.list` always builds records for `id`, `pulsar`,
`pipelineRunId`, `dmCorrected` and `obsNchan` and appends `minimumNsubs` and
`maximumNsubs` records only when the corresponding argument is truthy;
`Pulsar.list` builds a record only for `name`, ignoring `id`. -/
theorem list_filters_construction :
    (∀ (s : TableState) (id : Option Int) (ty : Option String),
      (Calibration.list s id ty).2.filters = calibrationFiltersSpec id ty)
  ∧ (∀ (s : TableState) (id : Option Int) (pn tn : Option String) (pid : Option Int)
      (psh utcs utce : Option String) (ot : String),
      (Observation.list s id pn tn pid psh utcs utce ot).map (fun r => r.2.filters)
        = observationFiltersSpec id pn tn pid psh utcs utce ot)
  ∧ (∀ (s : TableState) (id : Option Int) (p : Option String) (pri : Option Int)
      (dm mn mx : Option Bool) (nc : Option Int),
      (Toa.list s id p pri dm mn mx nc).2.filters = toaFiltersSpec id p pri dm mn mx nc)
  ∧ (∀ (s : TableState) (id : Option Int) (name : Option String),
      (Pulsar.list s id name).2.filters = pulsarFiltersSpec name) := by
  refine ⟨fun s id ty => rfl, ?_, ?_, fun s id name => rfl⟩
  · intro s id pn tn pid psh utcs utce ot
    unfold Observation.list observationFiltersSpec
    cases h1 : normalize_utc_arg utcs <;> cases h2 : normalize_utc_arg utce <;>
      simp [GraphQLTable.list_graphql, Req.filters]
  · intro s id p pri dm mn mx nc
    unfold Toa.list Toa.buildFilters toaFiltersSpec GraphQLTable.list_graphql
    cases hmn : truthy mn <;> cases hmx : truthy mx <;> simp [Req.filters]

/-- Claim C8: `Pulsar.list` ignores its `id` parameter entirely: two calls
with the same `name` and arbitrary (possibly different) `id` arguments
produce identical results, and the forwarded filter clause is the single
record `{field: name, value: name}`. -/
theorem pulsar_list_ignores_id :
    ∀ (s : TableState) (id1 id2 : Option Int) (name : Option String),
      Pulsar.list s id1 name = Pulsar.list s id2 name
    ∧ (Pulsar.list s id1 name).2.filters = [{ field := "name", value := Val.ofOptStr name }] := by
  intro s id1 id2 name
  exact ⟨rfl, rfl⟩

/-- Claim C9: `Observation.list` normalises both UTC bounds before building
the filters.  Called with empty-string `pulsar_name` and `project_short`, a
UTC start bound `t`, a UTC end bound `t2` and the default `obs_type`: if `t`
(respectively `t2`) is the empty string, the value of its filter record
becomes `None`; if it is any other string, it must parse as
`%Y-%m-%d-%H:%M:%S` (a parse failure raises `ValueError`, modelled as the
outer `Option.none`) and the value bound to `utcStartGte` (respectively
`utcStartLte`) is the reformatted `<date>T<time>+00:00` string; the
empty-string `pulsar_name` and `project_short` become `None`; and the
`obsType` record carries the default value `fold`. -/
theorem observation_list_normalisation :
    (∀ (s : TableState) (oid : Option Int) (tn : Option String) (pid : Option Int) (t t2 : String),
      (Observation.list s oid (Option.some "") tn pid (Option.some "") (Option.some t)
          (Option.some t2) Observation.obs_type_default).map (fun r => r.2.filters)
        = (if t = "" then Option.some Option.none
           else (strptime_Y_m_d_HMS t).map
             (fun d => Option.some (pydate_str d ++ "T" ++ pytime_str d ++ "+00:00"))).bind
            (fun u =>
              (if t2 = "" then Option.some Option.none
               else (strptime_Y_m_d_HMS t2).map
                 (fun d => Option.some (pydate_str d ++ "T" ++ pytime_str d ++ "+00:00"))).map
                (fun e =>
                  [{ field := "id", value := Val.ofOptInt oid },
                   { field := "pulsar_Name", value := Val.none },
                   { field := "telescope_Name", value := Val.ofOptStr tn },
                   { field := "project_Id", value := Val.ofOptInt pid },
                   { field := "project_Short", value := Val.none },
                   { field := "utcStartGte", value := Val.ofOptStr u },
                   { field := "utcStartLte", value := Val.ofOptStr e },
                   { field := "obsType", value := Val.str "fold" }])))
  ∧ Observation.obs_type_default = "fold" := by
  refine ⟨?_, rfl⟩
  intro s oid tn pid t t2
  unfold Observation.list normalize_utc_arg
  by_cases ht : t = ""
  · subst ht
    simp only [if_pos rfl]
    by_cases ht2 : t2 = ""
    · subst ht2
      rfl
    · simp only [ht2, if_false]
      cases hd2 : strptime_Y_m_d_HMS t2 <;>
        simp [hd2, GraphQLTable.list_graphql, Req.filters, Val.ofOptStr,
          Observation.obs_type_default]
  · simp only [ht, if_false]
    cases hd : strptime_Y_m_d_HMS t
    · simp [hd]
    · by_cases ht2 : t2 = ""
      · subst ht2
        simp [hd, GraphQLTable.list_graphql, Req.filters, Val.ofOptStr,
          Observation.obs_type_default]
      · simp only [ht2, if_false]
        cases hd2 : strptime_Y_m_d_HMS t2 <;>
          simp [hd, hd2, GraphQLTable.list_graphql, Req.filters, Val.ofOptStr,
            Observation.obs_type_default]

/-- Claim C7: for every entity module and every id, `delete` binds the
variables dictionary to exactly `{id: id}`, sets the hard-coded
`delete<Entity>` mutation, and returns the forwarded `mutation_graphql`
request carrying that name, that string and that binding.  The text after
the last closing parenthesis of each delete mutation — its result selection
block — contains the single identifier `ok`. -/
theorem delete_mutation_shape :
    (∀ (s : TableState) (id : Int),
      Pulsar.delete s id =
        ({ s with
              mutation_name := "deletePulsar",
              mutation := Pulsar.deleteMutation,
              varsDict := [("id", Val.int id)] },
          Req.mutationReq "deletePulsar" Pulsar.deleteMutation [("id", Val.int id)]))
  ∧ identTokens (afterLastParen Pulsar.deleteMutation) = ["ok"]
  ∧ (∀ (s : TableState) (id : Int),
      Calibration.delete s id =
        ({ s with
              mutation_name := "deleteCalibration",
              mutation := Calibration.deleteMutation,
              varsDict := [("id", Val.int id)] },
          Req.mutationReq "deleteCalibration" Calibration.deleteMutation [("id", Val.int id)]))
  ∧ identTokens (afterLastParen Calibration.deleteMutation) = ["ok"]
  ∧ (∀ (s : TableState) (id : Int),
      Observation.delete s id =
        ({ s with
              mutation_name := "deleteObservation",
              mutation := Observation.deleteMutation,
              varsDict := [("id", Val.int id)] },
          Req.mutationReq "deleteObservation" Observation.deleteMutation [("id", Val.int id)]))
  ∧ identTokens (afterLastParen Observation.deleteMutation) = ["ok"]
  ∧ (∀ (s : TableState) (id : Int),
      Toa.delete s id =
        ({ s with
              mutation_name := "deleteToa",
              mutation := Toa.deleteMutation,
              varsDict := [("id", Val.int id)] },
          Req.mutationReq "deleteToa" Toa.deleteMutation [("id", Val.int id)]))
  ∧ identTokens (afterLastParen Toa.deleteMutation) = ["ok"] := by
  refine ⟨?_, by decide, ?_, by decide, ?_, by decide, ?_, by decide⟩ <;>
    · intro s id
      rfl


/-- Claim C6: the field projection of every list call is exactly the
`field_names` list fixed at construction (for `Pulsar`: `id`, `name`,
`comment`), and no operation of any module (list, create, update, delete,
download) modifies `field_names`: every list request forwards the current
`s.field_names` unchanged, whatever the arguments. -/
theorem field_names_projection_invariant :
    Pulsar.init.field_names = ["id", "name", "comment"]
  ∧ Calibration.init.field_names = ["id", "delayCalId", "phaseUpId", "calibrationType", "location"]
  ∧ Observation.init.field_names = ["id", "pulsar \x7b name \x7d", "calibration \x7b id \x7d",
      "calibration \x7b location \x7d", "telescope \x7b name \x7d", "project \x7b code \x7d",
      "project \x7b short \x7d", "utcStart", "beam", "band", "duration"]
  ∧ Toa.init.field_names = ["id", "pipelineRun\x7b id \x7d", "ephemeris \x7b id \x7d",
      "template \x7b id \x7d", "archive", "freqMhz", "mjd", "mjdErr", "telescope", "fe", "be",
      "f", "bw", "tobs", "tmplt", "gof", "nbin", "nch", "chan", "rcvr", "snr", "length", "subint"]
  ∧ (∀ (s : TableState) (id : Option Int) (name : Option String),
      (Pulsar.list s id name).1.field_names = s.field_names
    ∧ (Pulsar.list s id name).2.fields = s.field_names)
  ∧ (∀ (s : TableState) (name : String) (comment : Option String),
      (Pulsar.create s name comment).1.field_names = s.field_names)
  ∧ (∀ (s : TableState) (id : Int) (name : String) (comment : Option String),
      (Pulsar.update s id name comment).1.field_names = s.field_names)
  ∧ (∀ (s : TableState) (id : Int), (Pulsar.delete s id).1.field_names = s.field_names)
  ∧ (∀ (s : TableState) (id : Option Int) (ty : Option String),
      (Calibration.list s id ty).1.field_names = s.field_names
    ∧ (Calibration.list s id ty).2.fields = s.field_names)
  ∧ (∀ (s : TableState) (sb ty loc : Val),
      (Calibration.create s sb ty loc).1.field_names = s.field_names)
  ∧ (∀ (s : TableState) (id : Int) (sb ty loc : Val),
      (Calibration.update s id sb ty loc).1.field_names = s.field_names)
  ∧ (∀ (s : TableState) (id : Int), (Calibration.delete s id).1.field_names = s.field_names)
  ∧ (∀ (s : TableState) (oid : Option Int) (pn tn : Option String) (pid : Option Int)
      (psh utcs utce : Option String) (ot : String),
      Option.all (fun r => r.1.field_names == s.field_names && r.2.fields == s.field_names)
        (Observation.list s oid pn tn pid psh utcs utce ot) = true)
  ∧ (∀ (s : TableState) (a b c d e f g h i j k l m n o p q r t u v w x y z aa ab : Val),
      (Observation.create s a b c d e f g h i j k l m n o p q r t u v w x y z aa ab).1.field_names
        = s.field_names)
  ∧ (∀ (s : TableState) (oid : Val) (a b c d e f g h i j k l m n o p q r t u v w x y z aa ab : Val),
      (Observation.update s oid a b c d e f g h i j k l m n o p q r t u v w x y z aa ab).1.field_names
        = s.field_names)
  ∧ (∀ (s : TableState) (id : Int), (Observation.delete s id).1.field_names = s.field_names)
  ∧ (∀ (s : TableState) (tid : Option Int) (tp : Option String) (tpr : Option Int)
      (tdm tmn tmx : Option Bool) (tnc : Option Int),
      (Toa.list s tid tp tpr tdm tmn tmx tnc).1.field_names = s.field_names
    ∧ (Toa.list s tid tp tpr tdm tmn tmx tnc).2.fields = s.field_names)
  ∧ (∀ (s : TableState) (a b c d e f g : Val),
      (Toa.create s a b c d e f g).1.field_names = s.field_names)
  ∧ (∀ (s : TableState) (id : Int), (Toa.delete s id).1.field_names = s.field_names)
  ∧ (∀ (s : TableState) (p : String) (tid tpr : Option Int) (tdm tmn tmx : Option Bool)
      (tnc : Option Int) (response : List Dict),
      Option.all (fun r => r.1.field_names == s.field_names && r.2.1.fields == s.field_names)
        (Toa.download s p tid tpr tdm tmn tmx tnc response) = true) := by
  refine ⟨rfl, rfl, rfl, rfl, fun s id name => ⟨rfl, rfl⟩, fun s n c => rfl,
    fun s i n c => rfl, fun s i => rfl, fun s i ty => ⟨rfl, rfl⟩, fun s a b c => rfl,
    fun s i a b c => rfl, fun s i => rfl, ?_, fun s a b c d e f g h i j k l m n o p q r t u v w x y z aa ab => rfl,
    fun s oid a b c d e f g h i j k l m n o p q r t u v w x y z aa ab => rfl,
    fun s i => rfl, fun s tid tp tpr tdm tmn tmx tnc => ⟨rfl, rfl⟩,
    fun s a b c d e f g => rfl, fun s i => rfl, ?_⟩
  · intro s oid pn tn pid psh utcs utce ot
    unfold Observation.list
    cases h1 : normalize_utc_arg utcs <;> cases h2 : normalize_utc_arg utce <;>
      simp [GraphQLTable.list_graphql, Req.fields]
  · intro s p tid tpr tdm tmn tmx tnc response
    unfold Toa.download
    cases hm : List.mapM Toa.toa_line_transform response <;>
      simp [GraphQLTable.list_graphql, Req.fields]


/-- The record conversion of `Toa.download`, on a record with distinct keys,
removes the keys `pipelineRun`, `ephemeris`, `template`, `freqMhz` and
`mjdErr`, and stores the old `freqMhz` and `mjdErr` values under `freq_MHz`
and `mjd_err`. -/
theorem toa_line_transform_lookups (d0 d1 : Dict)
    (hnd : (List.map Prod.fst d0).Nodup)
    (h0 : Toa.toa_line_transform d0 = Option.some d1) :
    dictGet "pipelineRun" d1 = Option.none
  ∧ dictGet "ephemeris" d1 = Option.none
  ∧ dictGet "template" d1 = Option.none
  ∧ dictGet "freqMhz" d1 = Option.none
  ∧ dictGet "mjdErr" d1 = Option.none
  ∧ dictGet "freq_MHz" d1 = dictGet "freqMhz" d0
  ∧ dictGet "mjd_err" d1 = dictGet "mjdErr" d0 := by
  unfold Toa.toa_line_transform at h0
  simp only [bind, Option.bind_eq_some, Option.pure_def, Option.some.injEq] at h0
  obtain ⟨a, ha, b, hb, c, hc, f, hf, m, hm, e, he, g, hg, hd1⟩ := h0
  have hae := dictDel_eq _ _ _ ha
  have hbe := dictDel_eq _ _ _ hb
  have hce := dictDel_eq _ _ _ hc
  have hee := dictDel_eq _ _ _ he
  have hge := dictDel_eq _ _ _ hg
  subst hd1
  subst hae hbe hce hee hge
  have nda : (List.map Prod.fst (List.eraseP (fun p => p.1 == "pipelineRun") d0)).Nodup :=
    nodup_keys_eraseP _ _ hnd
  have ndb : (List.map Prod.fst (List.eraseP (fun p => p.1 == "ephemeris")
      (List.eraseP (fun p => p.1 == "pipelineRun") d0))).Nodup :=
    nodup_keys_eraseP _ _ nda
  have ndc : (List.map Prod.fst (List.eraseP (fun p => p.1 == "template")
      (List.eraseP (fun p => p.1 == "ephemeris")
        (List.eraseP (fun p => p.1 == "pipelineRun") d0)))).Nodup :=
    nodup_keys_eraseP _ _ ndb
  set c : Dict := List.eraseP (fun p => p.1 == "template")
      (List.eraseP (fun p => p.1 == "ephemeris")
        (List.eraseP (fun p => p.1 == "pipelineRun") d0)) with hcdef
  have ndc2 : (List.map Prod.fst (dictSet "freq_MHz" f c)).Nodup :=
    nodup_keys_dictSet _ _ _ ndc
  have ndc3 : (List.map Prod.fst (dictSet "mjd_err" m (dictSet "freq_MHz" f c))).Nodup :=
    nodup_keys_dictSet _ _ _ ndc2
  have nde : (List.map Prod.fst (List.eraseP (fun p => p.1 == "freqMhz")
      (dictSet "mjd_err" m (dictSet "freq_MHz" f c)))).Nodup :=
    nodup_keys_eraseP _ _ ndc3
  refine ⟨?_, ?_, ?_, ?_, ?_, ?_, ?_⟩
  · rw [dictGet_eraseP_ne _ _ _ (by decide), dictGet_eraseP_ne _ _ _ (by decide),
        dictGet_dictSet_ne _ _ _ _ (by decide), dictGet_dictSet_ne _ _ _ _ (by decide),
        dictGet_eraseP_ne _ _ _ (by decide), dictGet_eraseP_ne _ _ _ (by decide)]
    exact dictGet_eraseP_self _ _ hnd
  · rw [dictGet_eraseP_ne _ _ _ (by decide), dictGet_eraseP_ne _ _ _ (by decide),
        dictGet_dictSet_ne _ _ _ _ (by decide), dictGet_dictSet_ne _ _ _ _ (by decide),
        dictGet_eraseP_ne _ _ _ (by decide)]
    exact dictGet_eraseP_self _ _ nda
  · rw [dictGet_eraseP_ne _ _ _ (by decide), dictGet_eraseP_ne _ _ _ (by decide),
        dictGet_dictSet_ne _ _ _ _ (by decide), dictGet_dictSet_ne _ _ _ _ (by decide)]
    exact dictGet_eraseP_self _ _ ndb
  · rw [dictGet_eraseP_ne _ _ _ (by decide)]
    exact dictGet_eraseP_self _ _ ndc3
  · exact dictGet_eraseP_self _ _ nde
  · rw [dictGet_eraseP_ne _ _ _ (by decide), dictGet_eraseP_ne _ _ _ (by decide),
        dictGet_dictSet_ne _ _ _ _ (by decide), dictGet_dictSet_self]
    rw [hcdef] at hf
    rw [dictGet_eraseP_ne _ _ _ (by decide), dictGet_eraseP_ne _ _ _ (by decide),
        dictGet_eraseP_ne _ _ _ (by decide)] at hf
    exact hf.symm
  · rw [dictGet_eraseP_ne _ _ _ (by decide), dictGet_eraseP_ne _ _ _ (by decide),
        dictGet_dictSet_self]
    rw [dictGet_dictSet_ne _ _ _ _ (by decide)] at hm
    rw [hcdef] at hm
    rw [dictGet_eraseP_ne _ _ _ (by decide), dictGet_eraseP_ne _ _ _ (by decide),
        dictGet_eraseP_ne _ _ _ (by decide)] at hm
    exact hm.symm

/-- The output name built by `Toa.download` by successive appends equals the
name the claim describes: `toa_<pulsar>`, then one suffix per set filter
argument in the fixed order, then `.tim`. -/
theorem download_output_name_eq_spec (pulsar : String) (id pri : Option Int)
    (dm mn mx : Option Bool) (nc : Option Int) :
    Toa.download_output_name pulsar id pri dm mn mx nc
      = toaOutputNameSpec pulsar id pri dm mn mx nc := by
  unfold Toa.download_output_name toaOutputNameSpec
  cases id <;> cases pri <;> cases nc <;>
    cases hdm : truthy dm <;> cases hmn : truthy mn <;> cases hmx : truthy mx <;>
      simp [hdm, hmn, hmx, ← String.append_assoc, String.append_empty]

/-- Claim C10: `Toa.download` returns the deterministic file name
`toa_<pulsar>` + one suffix per set filter argument, in the fixed order
`id`, `pipeline_run_id`, `dm_corrected`, `minimum_nsubs`, `maximum_nsubs`,
`nchan` (truthiness for the booleans) + `.tim`; the file contents begin with
the line `FORMAT 1` followed by one converted line per returned record; and
the conversion removes each record's `pipelineRun`, `ephemeris` and
`template` keys and renames `freqMhz` and `mjdErr` to `freq_MHz` and
`mjd_err` before `toa_dict_to_line`. -/
theorem toa_download_name_and_file
    (s : TableState) (pulsar : String) (id pri : Option Int) (dm mn mx : Option Bool)
    (nc : Option Int) (response : List Dict) (d0 d1 : Dict)
    (hnd : (List.map Prod.fst d0).Nodup)
    (h0 : Toa.toa_line_transform d0 = Option.some d1) :
    ((Toa.download s pulsar id pri dm mn mx nc response).map (fun r => r.2.2.1)
        = (List.mapM Toa.toa_line_transform response).map
            (fun _ => toaOutputNameSpec pulsar id pri dm mn mx nc))
  ∧ ((Toa.download s pulsar id pri dm mn mx nc response).map (fun r => r.2.2.2)
        = (List.mapM Toa.toa_line_transform response).map
            (fun ts => "FORMAT 1" :: List.map toa_dict_to_line ts))
  ∧ dictGet "pipelineRun" d1 = Option.none
  ∧ dictGet "ephemeris" d1 = Option.none
  ∧ dictGet "template" d1 = Option.none
  ∧ dictGet "freqMhz" d1 = Option.none
  ∧ dictGet "mjdErr" d1 = Option.none
  ∧ dictGet "freq_MHz" d1 = dictGet "freqMhz" d0
  ∧ dictGet "mjd_err" d1 = dictGet "mjdErr" d0 := by
  have hl := toa_line_transform_lookups d0 d1 hnd h0
  refine ⟨?_, ?_, hl.1, hl.2.1, hl.2.2.1, hl.2.2.2.1, hl.2.2.2.2.1,
    hl.2.2.2.2.2.1, hl.2.2.2.2.2.2⟩
  · unfold Toa.download
    cases hm : List.mapM Toa.toa_line_transform response <;>
      simp [hm, download_output_name_eq_spec]
  · unfold Toa.download
    cases hm : List.mapM Toa.toa_line_transform response <;> simp [hm]

/-- Witness for `toa_download_name_and_file`: the theorem applied to a
concrete download (pulsar J0437-4715, id 42, dm-corrected, 4 channels) on a
concrete one-record response, discharging both hypotheses by evaluation. -/
theorem toa_download_name_and_file_witness :
    ((List.map Prod.fst ([("id", Val.int 1), ("pipelineRun", Val.int 2),
        ("ephemeris", Val.int 3), ("template", Val.int 4), ("archive", Val.str "a.ar"),
        ("freqMhz", Val.str "1283.582"), ("mjd", Val.str "59000.123"),
        ("mjdErr", Val.str "0.001")] : Dict)).Nodup)
  ∧ Toa.toa_line_transform
      [("id", Val.int 1), ("pipelineRun", Val.int 2), ("ephemeris", Val.int 3),
       ("template", Val.int 4), ("archive", Val.str "a.ar"), ("freqMhz", Val.str "1283.582"),
       ("mjd", Val.str "59000.123"), ("mjdErr", Val.str "0.001")]
    = Option.some
      [("id", Val.int 1), ("archive", Val.str "a.ar"), ("mjd", Val.str "59000.123"),
       ("freq_MHz", Val.str "1283.582"), ("mjd_err", Val.str "0.001")]
  ∧ (((Toa.download Toa.init "J0437-4715" (Option.some 42) Option.none (Option.some true)
        (Option.some false) Option.none (Option.some 4)
        [[("id", Val.int 1), ("pipelineRun", Val.int 2), ("ephemeris", Val.int 3),
          ("template", Val.int 4), ("archive", Val.str "a.ar"), ("freqMhz", Val.str "1283.582"),
          ("mjd", Val.str "59000.123"), ("mjdErr", Val.str "0.001")]]).map (fun r => r.2.2.1)
      = (List.mapM Toa.toa_line_transform
          [[("id", Val.int 1), ("pipelineRun", Val.int 2), ("ephemeris", Val.int 3),
            ("template", Val.int 4), ("archive", Val.str "a.ar"), ("freqMhz", Val.str "1283.582"),
            ("mjd", Val.str "59000.123"), ("mjdErr", Val.str "0.001")]]).map
          (fun _ => toaOutputNameSpec "J0437-4715" (Option.some 42) Option.none
            (Option.some true) (Option.some false) Option.none (Option.some 4)))
    ∧ ((Toa.download Toa.init "J0437-4715" (Option.some 42) Option.none (Option.some true)
        (Option.some false) Option.none (Option.some 4)
        [[("id", Val.int 1), ("pipelineRun", Val.int 2), ("ephemeris", Val.int 3),
          ("template", Val.int 4), ("archive", Val.str "a.ar"), ("freqMhz", Val.str "1283.582"),
          ("mjd", Val.str "59000.123"), ("mjdErr", Val.str "0.001")]]).map (fun r => r.2.2.2)
      = (List.mapM Toa.toa_line_transform
          [[("id", Val.int 1), ("pipelineRun", Val.int 2), ("ephemeris", Val.int 3),
            ("template", Val.int 4), ("archive", Val.str "a.ar"), ("freqMhz", Val.str "1283.582"),
            ("mjd", Val.str "59000.123"), ("mjdErr", Val.str "0.001")]]).map
          (fun ts => "FORMAT 1" :: List.map toa_dict_to_line ts))
    ∧ dictGet "pipelineRun"
        [("id", Val.int 1), ("archive", Val.str "a.ar"), ("mjd", Val.str "59000.123"),
         ("freq_MHz", Val.str "1283.582"), ("mjd_err", Val.str "0.001")] = Option.none
    ∧ dictGet "ephemeris"
        [("id", Val.int 1), ("archive", Val.str "a.ar"), ("mjd", Val.str "59000.123"),
         ("freq_MHz", Val.str "1283.582"), ("mjd_err", Val.str "0.001")] = Option.none
    ∧ dictGet "template"
        [("id", Val.int 1), ("archive", Val.str "a.ar"), ("mjd", Val.str "59000.123"),
         ("freq_MHz", Val.str "1283.582"), ("mjd_err", Val.str "0.001")] = Option.none
    ∧ dictGet "freqMhz"
        [("id", Val.int 1), ("archive", Val.str "a.ar"), ("mjd", Val.str "59000.123"),
         ("freq_MHz", Val.str "1283.582"), ("mjd_err", Val.str "0.001")] = Option.none
    ∧ dictGet "mjdErr"
        [("id", Val.int 1), ("archive", Val.str "a.ar"), ("mjd", Val.str "59000.123"),
         ("freq_MHz", Val.str "1283.582"), ("mjd_err", Val.str "0.001")] = Option.none
    ∧ dictGet "freq_MHz"
        [("id", Val.int 1), ("archive", Val.str "a.ar"), ("mjd", Val.str "59000.123"),
         ("freq_MHz", Val.str "1283.582"), ("mjd_err", Val.str "0.001")]
      = dictGet "freqMhz"
        [("id", Val.int 1), ("pipelineRun", Val.int 2), ("ephemeris", Val.int 3),
         ("template", Val.int 4), ("archive", Val.str "a.ar"), ("freqMhz", Val.str "1283.582"),
         ("mjd", Val.str "59000.123"), ("mjdErr", Val.str "0.001")]
    ∧ dictGet "mjd_err"
        [("id", Val.int 1), ("archive", Val.str "a.ar"), ("mjd", Val.str "59000.123"),
         ("freq_MHz", Val.str "1283.582"), ("mjd_err", Val.str "0.001")]
      = dictGet "mjdErr"
        [("id", Val.int 1), ("pipelineRun", Val.int 2), ("ephemeris", Val.int 3),
         ("template", Val.int 4), ("archive", Val.str "a.ar"), ("freqMhz", Val.str "1283.582"),
         ("mjd", Val.str "59000.123"), ("mjdErr", Val.str "0.001")]) :=
  ⟨by decide, by decide,
    toa_download_name_and_file Toa.init "J0437-4715" (Option.some 42) Option.none
      (Option.some true) (Option.some false) Option.none (Option.some 4)
      [[("id", Val.int 1), ("pipelineRun", Val.int 2), ("ephemeris", Val.int 3),
        ("template", Val.int 4), ("archive", Val.str "a.ar"), ("freqMhz", Val.str "1283.582"),
        ("mjd", Val.str "59000.123"), ("mjdErr", Val.str "0.001")]]
      [("id", Val.int 1), ("pipelineRun", Val.int 2), ("ephemeris", Val.int 3),
       ("template", Val.int 4), ("archive", Val.str "a.ar"), ("freqMhz", Val.str "1283.582"),
       ("mjd", Val.str "59000.123"), ("mjdErr", Val.str "0.001")]
      [("id", Val.int 1), ("archive", Val.str "a.ar"), ("mjd", Val.str "59000.123"),
       ("freq_MHz", Val.str "1283.582"), ("mjd_err", Val.str "0.001")]
      (by decide) (by decide)⟩

end Psrdb
